import Mathlib

/-!
Verification of the mr360ai content/HTML analyzers against their
natural-language specification.  The JavaScript sources under
`assets/js/` are shallowly embedded: each battery's checks become pure
Lean functions over a record of the document projections the check
queries, strings become `List Char` where scanning matters, JavaScript
exceptions become `Option`, and `Math.round` on a non-negative ratio
becomes floor of the ratio plus one half over the naturals.
-/

set_option maxRecDepth 10000

/-- ASCII lower-casing, the fragment of JavaScript `toLowerCase` exercised
by the analyzers (their dictionaries and markers are ASCII). -/
def lc (c : Char) : Char :=
  if 'A' ≤ c ∧ c ≤ 'Z' then Char.ofNat (c.toNat + 32) else c

/-- Word character in the sense of the JavaScript regex class `\w`
(letters, digits, underscore). -/
def isWordC (c : Char) : Bool :=
  decide (('a' ≤ c ∧ c ≤ 'z') ∨ ('A' ≤ c ∧ c ≤ 'Z') ∨ ('0' ≤ c ∧ c ≤ '9') ∨ c = '_')

/-- Whitespace in the sense of the JavaScript class `\s`, restricted to
the ASCII range used by the analyzed documents. -/
def isWsC (c : Char) : Bool :=
  c == ' ' || c == '\t' || c == '\n' || c == '\r' || c == '\x0b' || c == '\x0c'

/-- Character data of a string. -/
def asL (s : String) : List Char := s.data

/-- String from character data. -/
def ofL (l : List Char) : String := String.mk l

/-- Test whether the first list is an initial segment of the second. -/
def leadsWith : List Char → List Char → Bool
  | [], _ => true
  | _ :: _, [] => false
  | p :: ps, c :: cs => p == c && leadsWith ps cs

/-- Substring test, the JavaScript `String.prototype.includes`. -/
def hasSub (n : List Char) : List Char → Bool
  | [] => leadsWith n []
  | c :: cs => leadsWith n (c :: cs) || hasSub n cs

/-- String-level `includes`. -/
def sIncl (needle hay : String) : Bool := hasSub (asL needle) (asL hay)

/-- String-level `startsWith`. -/
def startsW (p s : String) : Bool := leadsWith (asL p) (asL s)

/-- ASCII `toLowerCase` on strings. -/
def lowerS (s : String) : String := ofL ((asL s).map lc)

/-- JavaScript string length (the analyzed strings are ASCII, so code
units and characters agree). -/
def strLen (s : String) : ℕ := (asL s).length

/-- JavaScript `trim`: strip leading and trailing whitespace. -/
def jsTrim (s : String) : String :=
  ofL ((((asL s).dropWhile isWsC).reverse.dropWhile isWsC).reverse)

/-- JavaScript `Math.round (num / den * 100)` for natural `num`, `den`
with `den > 0`: the floor of `100 * num / den + 1 / 2`. -/
def jsRound100 (num den : ℕ) : ℕ := (200 * num + den) / (2 * den)

/-- Splitting on `/\s+/` as JavaScript `split` does: separators are
maximal whitespace runs, and leading or trailing runs contribute empty
fragments.  The first argument is structural fuel — every step consumes
at least one character, so fuel equal to the input length (supplied by
the wrapper) never runs out; the same convention is used by all the
scanners below so that they compute by reduction. -/
def splitWsGo : ℕ → List Char → List Char → List (List Char)
  | _, cur, [] => [cur]
  | 0, cur, _ => [cur]
  | fuel + 1, cur, c :: cs =>
    if isWsC c then cur :: splitWsGo fuel [] (cs.dropWhile (fun d => isWsC d))
    else splitWsGo fuel (cur ++ [c]) cs

/-- JavaScript `text.split(/\s+/)` on character data. -/
def jsSplitWs (l : List Char) : List (List Char) := splitWsGo l.length [] l

/-- Word count used by the word-count checks:
`text.trim().split(/\s+/).filter(w => w.length > 0).length`. -/
def wordCountOf (s : String) : ℕ :=
  ((jsSplitWs (asL (jsTrim s))).filter (fun w => w ≠ [])).length

/-- Hostname extraction modelling `new URL(url).hostname` with the
analyzers' `try`/`catch` fallback: on anything unparseable the result is
the empty string (the spec's "best-effort" degradation).  The scheme
must be alphanumeric and start with a letter; the host part is what
follows `://` up to a path, query, fragment or port delimiter, with any
user-information part before `@` dropped, lower-cased as `URL` does. -/
def urlHostname (url : String) : String :=
  let l := asL url
  let rec findMark : List Char → Option (List Char × List Char) :=
    fun s => match s with
    | [] => none
    | c :: cs =>
      if leadsWith (asL "://") (c :: cs) then some ([], (c :: cs).drop 3)
      else match findMark cs with
        | none => none
        | some (sch, rest) => some (c :: sch, rest)
  match findMark l with
  | none => ""
  | some (scheme, rest) =>
    let okScheme := scheme ≠ [] &&
      (match scheme with
       | [] => false
       | c :: _ => decide (('a' ≤ lc c ∧ lc c ≤ 'z'))) &&
      scheme.all (fun c =>
        decide (('a' ≤ lc c ∧ lc c ≤ 'z') ∨ ('0' ≤ c ∧ c ≤ '9') ∨ c = '+' ∨ c = '-' ∨ c = '.'))
    if okScheme then
      let hostPort := rest.takeWhile (fun c => ¬ (c = '/' ∨ c = '?' ∨ c = '#'))
      let afterCreds := hostPort.foldl (fun acc c => if c = '@' then [] else acc ++ [c]) []
      let host := afterCreds.takeWhile (fun c => c ≠ ':')
      if host = [] then "" else ofL (host.map lc)
    else ""

/-- Verdict carried by one check. -/
inductive Status where
  | pass | warning | fail
deriving DecidableEq

/-- Result record produced by every check, mirroring the object literals
in the sources (`name`, `status`, `score`, `message`, `suggestion`). -/
structure CheckResult where
  name : String
  status : Status
  score : ℕ
  message : String
  suggestion : Option String
deriving DecidableEq

/-- Severity tier selected by each battery's display ladder. -/
inductive Tier where
  | top | middle | bottom
deriving DecidableEq

/-- Sum of the scores of a list of check results. -/
def sumScores (cs : List CheckResult) : ℕ := (cs.map (fun c => c.score)).sum

namespace SEO

/-- Projections of the parsed document queried by the SEO battery
(`seo-checker.js`).  `Option (Option String)` fields distinguish a
missing element (outer `none`) from an element whose attribute is
absent (`some none`), exactly the `querySelector`/`getAttribute`
distinction the code relies on. -/
structure SEODoc where
  title : Option String
  metaDescription : Option (Option String)
  h1Texts : List String
  h2Count : ℕ
  h3Count : ℕ
  imageAlts : List (Option String)
  linkHrefs : List String
  viewport : Option (Option String)
  canonical : Option (Option String)
deriving DecidableEq

/-- `checkTitle` of `seo-checker.js`. -/
def checkTitle (title : Option String) : CheckResult :=
  let titleText := match title with
    | some t => jsTrim t
    | none => ""
  let length := strLen titleText
  if title.isNone ∨ length = 0 then
    { name := "Title Tag", status := .fail, score := 0,
      message := "Missing title tag - critical SEO element not found.",
      suggestion := some "Add a unique, descriptive title tag (50-60 characters) that includes your primary keyword." }
  else if length < 30 then
    { name := "Title Tag", status := .warning, score := 8,
      message := "Title too short (" ++ toString length ++ " chars). May not fully describe page content.",
      suggestion := some "Expand to 50-60 characters. Include primary keyword near the beginning." }
  else if length > 70 then
    { name := "Title Tag", status := .warning, score := 10,
      message := "Title too long (" ++ toString length ++ " chars). Will be truncated in search results.",
      suggestion := some "Shorten to 50-60 characters for optimal display in SERPs." }
  else
    { name := "Title Tag", status := .pass, score := 15,
      message := "Well-optimized title (" ++ toString length ++ " characters).",
      suggestion := none }

/-- `checkMetaDescription` of `seo-checker.js`.  The source computes
`meta ? meta.getAttribute('content')?.trim() : ''` and then reads
`content.length`; when the tag exists but carries no `content`
attribute the optional chaining yields `undefined` and the length read
throws a `TypeError`, modelled here by `none`. -/
def checkMetaDescription (meta : Option (Option String)) : Option CheckResult :=
  let content : Option String := match meta with
    | none => some ""
    | some attr => attr.map jsTrim
  match content with
  | none => none
  | some c =>
    let length := strLen c
    some (
      if meta.isNone ∨ length = 0 then
        { name := "Meta Description", status := .fail, score := 0,
          message := "Missing meta description - important for click-through rates.",
          suggestion := some "Add a compelling meta description (150-160 chars) that summarizes page content and includes target keywords." }
      else if length < 100 then
        { name := "Meta Description", status := .warning, score := 6,
          message := "Meta description short (" ++ toString length ++ " chars). Not using full SERP space.",
          suggestion := some "Expand to 150-160 characters to maximize visibility in search results." }
      else if length > 170 then
        { name := "Meta Description", status := .warning, score := 9,
          message := "Meta description long (" ++ toString length ++ " chars). Will be truncated.",
          suggestion := some "Trim to 150-160 characters to prevent truncation in search results." }
      else
        { name := "Meta Description", status := .pass, score := 12,
          message := "Well-optimized meta description (" ++ toString length ++ " characters).",
          suggestion := none })

/-- `checkH1Tags` of `seo-checker.js`. -/
def checkH1Tags (h1s : List String) : CheckResult :=
  match h1s with
  | [] =>
    { name := "H1 Heading", status := .fail, score := 0,
      message := "No H1 heading found - main topic unclear to search engines.",
      suggestion := some "Add exactly one H1 tag that clearly describes your page's main topic." }
  | t :: rest =>
    if rest.length + 1 > 1 then
      { name := "H1 Heading", status := .warning, score := 8,
        message := "Multiple H1 tags found (" ++ toString (rest.length + 1) ++ "). Dilutes topic focus.",
        suggestion := some "Use only one H1 per page. Convert others to H2 or H3 tags." }
    else if strLen (jsTrim t) < 10 then
      { name := "H1 Heading", status := .warning, score := 8,
        message := "H1 heading appears too short or generic.",
        suggestion := some "Make H1 more descriptive with relevant keywords (20-70 characters ideal)." }
    else
      { name := "H1 Heading", status := .pass, score := 12,
        message := "Single, well-structured H1 heading present.",
        suggestion := none }

/-- `checkHeadingHierarchy` of `seo-checker.js`. -/
def checkHeadingHierarchy (h1 h2 h3 : ℕ) : CheckResult :=
  if h1 = 0 then
    { name := "Heading Structure", status := .fail, score := 0,
      message := "No heading hierarchy established.",
      suggestion := some "Create proper heading structure: H1 for main topic, H2 for sections, H3 for subsections." }
  else if h2 = 0 then
    { name := "Heading Structure", status := .warning, score := 5,
      message := "No H2 headings found. Content may lack structure.",
      suggestion := some "Add H2 headings to break content into logical sections." }
  else if h2 ≥ 2 ∧ (h3 ≥ 1 ∨ h2 ≥ 4) then
    { name := "Heading Structure", status := .pass, score := 10,
      message := "Good heading hierarchy (" ++ toString h1 ++ " H1, " ++ toString h2 ++ " H2, " ++ toString h3 ++ " H3).",
      suggestion := none }
  else
    { name := "Heading Structure", status := .warning, score := 7,
      message := "Basic heading structure (" ++ toString h1 ++ " H1, " ++ toString h2 ++ " H2).",
      suggestion := some "Consider adding more H2/H3 headings to improve content organization." }

/-- `checkImageAlts` of `seo-checker.js`. -/
def checkImageAlts (alts : List (Option String)) : CheckResult :=
  let total := alts.length
  if total = 0 then
    { name := "Image Alt Attributes", status := .warning, score := 5,
      message := "No images found. Consider adding relevant visuals.",
      suggestion := some "Add images with descriptive alt text to enhance user engagement and SEO." }
  else
    let withAlt := (alts.filter (fun a => match a with
      | some s => strLen (jsTrim s) > 0
      | none => false)).length
    let percentage := jsRound100 withAlt total
    if percentage < 50 then
      { name := "Image Alt Attributes", status := .fail, score := 2,
        message := "Only " ++ toString percentage ++ "% of images have alt text (" ++ toString withAlt ++ "/" ++ toString total ++ ").",
        suggestion := some "Add descriptive alt text to all images for accessibility and SEO." }
    else if percentage < 90 then
      { name := "Image Alt Attributes", status := .warning, score := 6,
        message := toString percentage ++ "% of images have alt text (" ++ toString withAlt ++ "/" ++ toString total ++ ").",
        suggestion := some "Add alt text to remaining images without descriptions." }
    else
      { name := "Image Alt Attributes", status := .pass, score := 10,
        message := "Excellent! " ++ toString percentage ++ "% of images have alt text.",
        suggestion := none }

/-- Internal-link predicate shared by `checkInternalLinks` and (negated,
with the `http` test) `checkExternalLinks`: empty `href` attributes are
falsy in the source and never counted. -/
def isInternalHref (base h : String) : Bool :=
  h ≠ "" && (startsW "/" h || startsW "#" h || startsW "./" h ||
    !startsW "http" h || (base ≠ "" && sIncl base h))

/-- `checkInternalLinks` of `seo-checker.js`. -/
def checkInternalLinks (hrefs : List String) (url : String) : CheckResult :=
  let baseDomain := urlHostname url
  let internal := (hrefs.filter (fun h => isInternalHref baseDomain h)).length
  if internal < 3 then
    { name := "Internal Links", status := .fail, score := 2,
      message := "Very few internal links (" ++ toString internal ++ "). Poor site structure signal.",
      suggestion := some "Add more internal links to connect related content and improve crawlability." }
  else if internal < 10 then
    { name := "Internal Links", status := .warning, score := 6,
      message := "Moderate internal linking (" ++ toString internal ++ " links).",
      suggestion := some "Consider adding more contextual internal links to related pages." }
  else
    { name := "Internal Links", status := .pass, score := 10,
      message := "Good internal linking structure (" ++ toString internal ++ " links).",
      suggestion := none }

/-- `checkExternalLinks` of `seo-checker.js`. -/
def checkExternalLinks (hrefs : List String) (url : String) : CheckResult :=
  let baseDomain := urlHostname url
  let external := (hrefs.filter (fun h =>
    h ≠ "" && startsW "http" h && baseDomain ≠ "" && !sIncl baseDomain h)).length
  if external = 0 then
    { name := "External Links", status := .warning, score := 4,
      message := "No external links found.",
      suggestion := some "Consider linking to authoritative external sources to build trust." }
  else if external > 20 then
    { name := "External Links", status := .warning, score := 5,
      message := "Many external links (" ++ toString external ++ "). May dilute page authority.",
      suggestion := some "Review external links and keep only the most valuable ones." }
  else
    { name := "External Links", status := .pass, score := 8,
      message := "Balanced external linking (" ++ toString external ++ " links).",
      suggestion := none }

/-- `checkHTTPS` of `seo-checker.js`. -/
def checkHTTPS (url : String) : CheckResult :=
  if url = "" then
    { name := "HTTPS Security", status := .warning, score := 5,
      message := "Could not verify HTTPS status.",
      suggestion := some "Ensure your site uses HTTPS for security and SEO benefits." }
  else if startsW "https://" (lowerS url) then
    { name := "HTTPS Security", status := .pass, score := 10,
      message := "Site uses secure HTTPS connection.",
      suggestion := none }
  else
    { name := "HTTPS Security", status := .fail, score := 0,
      message := "Site not using HTTPS - major security and ranking issue.",
      suggestion := some "Migrate to HTTPS immediately. Most hosts offer free SSL certificates." }

/-- `checkViewport` of `seo-checker.js` (`getAttribute('content') || ''`
collapses the missing attribute to the empty string, so no throw here). -/
def checkViewport (viewport : Option (Option String)) : CheckResult :=
  match viewport with
  | none =>
    { name := "Mobile Viewport", status := .fail, score := 0,
      message := "Missing viewport meta tag - likely not mobile-friendly.",
      suggestion := some "Add <meta name=\"viewport\" content=\"width=device-width, initial-scale=1.0\">" }
  | some attr =>
    let content := attr.getD ""
    if sIncl "width=device-width" content then
      { name := "Mobile Viewport", status := .pass, score := 8,
        message := "Mobile-responsive viewport configured.",
        suggestion := none }
    else
      { name := "Mobile Viewport", status := .warning, score := 5,
        message := "Viewport present but may not be optimally configured.",
        suggestion := some "Use \"width=device-width, initial-scale=1.0\" for best mobile experience." }

/-- `checkCanonical` of `seo-checker.js` (a `null` href is falsy, so it
takes the empty branch rather than throwing). -/
def checkCanonical (canonical : Option (Option String)) : CheckResult :=
  match canonical with
  | none =>
    { name := "Canonical Tag", status := .warning, score := 2,
      message := "No canonical tag found.",
      suggestion := some "Add a canonical tag to prevent duplicate content issues." }
  | some attr =>
    match attr with
    | some h =>
      if strLen h > 0 then
        { name := "Canonical Tag", status := .pass, score := 5,
          message := "Canonical tag properly implemented.",
          suggestion := none }
      else
        { name := "Canonical Tag", status := .warning, score := 2,
          message := "Canonical tag present but empty.",
          suggestion := some "Set the canonical URL to the preferred version of this page." }
    | none =>
      { name := "Canonical Tag", status := .warning, score := 2,
        message := "Canonical tag present but empty.",
        suggestion := some "Set the canonical URL to the preferred version of this page." }

/-- Outcome object returned by `analyzeSEO`. -/
structure SEOResult where
  score : ℕ
  url : String
  checks : List CheckResult
deriving DecidableEq

/-- Weights accumulated into `maxScore` by `analyzeSEO`, in battery
order. -/
def weights : List ℕ := [15, 12, 12, 10, 10, 10, 8, 10, 8, 5]

/-- `analyzeSEO` of `seo-checker.js`: run the ten checks in order, sum
their scores, and normalize by the accumulated `maxScore`.  The result
is `none` when the meta-description check throws. -/
def analyzeSEO (d : SEODoc) (url : String) : Option SEOResult :=
  match checkMetaDescription d.metaDescription with
  | none => none
  | some c2 =>
    let checks := [
      checkTitle d.title,
      c2,
      checkH1Tags d.h1Texts,
      checkHeadingHierarchy d.h1Texts.length d.h2Count d.h3Count,
      checkImageAlts d.imageAlts,
      checkInternalLinks d.linkHrefs url,
      checkExternalLinks d.linkHrefs url,
      checkHTTPS url,
      checkViewport d.viewport,
      checkCanonical d.canonical]
    let maxScore := weights.sum
    let totalScore := sumScores checks
    some { score := jsRound100 totalScore maxScore, url := url, checks := checks }

/-- Tier ladder of `displaySEOResults`: green from 80, yellow from 60. -/
def tierOf (score : ℕ) : Tier :=
  if score ≥ 80 then .top else if score ≥ 60 then .middle else .bottom

end SEO

namespace Ads

/-- Anchor element as seen by `checkPrivacyPolicy` (`getAttribute('href')`
may be `null`, `textContent` is a string). -/
structure Anchor where
  href : Option String
  text : String
deriving DecidableEq

/-- Projections of the parsed document queried by the AdSense battery
(`adsense-checker.js`). -/
structure AdsDoc where
  title : Option String
  metaDescription : Option (Option String)
  h1Texts : List String
  bodyTextNoScripts : String
  imageAlts : List (Option String)
  navCount : ℕ
  hasHeaderNav : Bool
  navLinksCount : ℕ
  linkHrefs : List String
  anchors : List Anchor
  footerLinksCount : Option ℕ
deriving DecidableEq

/-- `checkTitleTag` of `adsense-checker.js`. -/
def checkTitleTag (title : Option String) : CheckResult :=
  let titleText := match title with
    | some t => jsTrim t
    | none => ""
  let titleLength := strLen titleText
  if title.isNone ∨ titleLength = 0 then
    { name := "Title Tag", status := .fail, score := 0,
      message := "No title tag found on your page.",
      suggestion := some "Add a descriptive title tag between 50-60 characters that describes your page content." }
  else if titleLength < 30 then
    { name := "Title Tag", status := .warning, score := 5,
      message := "Title tag found but too short (" ++ toString titleLength ++ " characters).",
      suggestion := some "Expand your title to 50-60 characters for optimal SEO. Include your main topic and site name." }
  else if titleLength > 70 then
    { name := "Title Tag", status := .warning, score := 7,
      message := "Title tag found but too long (" ++ toString titleLength ++ " characters).",
      suggestion := some "Shorten your title to 50-60 characters. Search engines may truncate longer titles." }
  else
    { name := "Title Tag", status := .pass, score := 10,
      message := "Title tag is well-optimized (" ++ toString titleLength ++ " characters).",
      suggestion := none }

/-- `checkMetaDescription` of `adsense-checker.js`; same optional
chaining slip as the SEO variant, so a description tag without a
`content` attribute throws (`none`). -/
def checkMetaDescription (meta : Option (Option String)) : Option CheckResult :=
  let content : Option String := match meta with
    | none => some ""
    | some attr => attr.map jsTrim
  match content with
  | none => none
  | some c =>
    let length := strLen c
    some (
      if meta.isNone ∨ length = 0 then
        { name := "Meta Description", status := .fail, score := 0,
          message := "No meta description found on your page.",
          suggestion := some "Add a meta description tag with 150-160 characters summarizing your page content." }
      else if length < 100 then
        { name := "Meta Description", status := .warning, score := 5,
          message := "Meta description found but too short (" ++ toString length ++ " characters).",
          suggestion := some "Expand your meta description to 150-160 characters to maximize visibility in search results." }
      else if length > 170 then
        { name := "Meta Description", status := .warning, score := 7,
          message := "Meta description found but too long (" ++ toString length ++ " characters).",
          suggestion := some "Shorten your meta description to 150-160 characters to prevent truncation in search results." }
      else
        { name := "Meta Description", status := .pass, score := 10,
          message := "Meta description is well-optimized (" ++ toString length ++ " characters).",
          suggestion := none })

/-- `checkH1Tag` of `adsense-checker.js`. -/
def checkH1Tag (h1s : List String) : CheckResult :=
  match h1s with
  | [] =>
    { name := "H1 Heading", status := .fail, score := 0,
      message := "No H1 heading found on your page.",
      suggestion := some "Add exactly one H1 heading that clearly describes your main content topic." }
  | t :: rest =>
    if rest.length + 1 > 1 then
      { name := "H1 Heading", status := .warning, score := 7,
        message := "Multiple H1 tags found (" ++ toString (rest.length + 1) ++ "). Best practice is to have exactly one.",
        suggestion := some "Use only one H1 tag per page. Use H2-H6 for subheadings." }
    else if strLen (jsTrim t) < 10 then
      { name := "H1 Heading", status := .warning, score := 7,
        message := "H1 heading found but may be too short or generic.",
        suggestion := some "Make your H1 more descriptive and relevant to your page content." }
    else
      { name := "H1 Heading", status := .pass, score := 10,
        message := "H1 heading is properly implemented.",
        suggestion := none }

/-- `checkWordCount` of `adsense-checker.js`: word count of the body
text with `script`/`style`/`noscript` content removed. -/
def checkWordCount (bodyText : String) : CheckResult :=
  let wordCount := wordCountOf bodyText
  if wordCount < 300 then
    { name := "Content Word Count", status := .fail, score := 0,
      message := "Very thin content detected (~" ++ toString wordCount ++ " words).",
      suggestion := some "Add substantial, valuable content. Aim for at least 500-1000 words of unique, helpful content per page." }
  else if wordCount < 500 then
    { name := "Content Word Count", status := .warning, score := 7,
      message := "Content may be thin (~" ++ toString wordCount ++ " words).",
      suggestion := some "Consider expanding your content to at least 500-1000 words for better AdSense approval chances." }
  else if wordCount < 800 then
    { name := "Content Word Count", status := .warning, score := 12,
      message := "Moderate content length (~" ++ toString wordCount ++ " words).",
      suggestion := some "Good start! For best results, aim for 800+ words of comprehensive content." }
  else
    { name := "Content Word Count", status := .pass, score := 15,
      message := "Good content length (~" ++ toString wordCount ++ " words).",
      suggestion := none }

/-- `checkImageAlts` of `adsense-checker.js`. -/
def checkImageAlts (alts : List (Option String)) : CheckResult :=
  let totalImages := alts.length
  if totalImages = 0 then
    { name := "Image Alt Attributes", status := .warning, score := 5,
      message := "No images found on the page.",
      suggestion := some "Consider adding relevant images to enhance user engagement. When you do, include descriptive alt text." }
  else
    let imagesWithAlt := (alts.filter (fun a => match a with
      | some s => strLen (jsTrim s) > 0
      | none => false)).length
    let percentage := jsRound100 imagesWithAlt totalImages
    if percentage < 50 then
      { name := "Image Alt Attributes", status := .fail, score := 2,
        message := "Only " ++ toString percentage ++ "% of images have alt attributes (" ++ toString imagesWithAlt ++ "/" ++ toString totalImages ++ ").",
        suggestion := some "Add descriptive alt text to all images for accessibility and SEO. This is important for AdSense approval." }
    else if percentage < 90 then
      { name := "Image Alt Attributes", status := .warning, score := 6,
        message := toString percentage ++ "% of images have alt attributes (" ++ toString imagesWithAlt ++ "/" ++ toString totalImages ++ ").",
        suggestion := some "Add alt text to the remaining images without it." }
    else
      { name := "Image Alt Attributes", status := .pass, score := 10,
        message := "All or most images have alt attributes (" ++ toString imagesWithAlt ++ "/" ++ toString totalImages ++ ").",
        suggestion := none }

/-- `checkHTTPS` of `adsense-checker.js`. -/
def checkHTTPS (url : String) : CheckResult :=
  if url = "" then
    { name := "HTTPS Security", status := .warning, score := 5,
      message := "Could not determine if your site uses HTTPS.",
      suggestion := some "Ensure your website uses HTTPS. Most hosting providers offer free SSL certificates." }
  else if startsW "https://" (lowerS url) then
    { name := "HTTPS Security", status := .pass, score := 10,
      message := "Your website uses HTTPS (secure connection).",
      suggestion := none }
  else
    { name := "HTTPS Security", status := .fail, score := 0,
      message := "Your website does not use HTTPS.",
      suggestion := some "Migrate to HTTPS immediately. This is essential for user trust and SEO. Most hosts offer free SSL certificates." }

/-- `checkNavigation` of `adsense-checker.js`. -/
def checkNavigation (navCount : ℕ) (hasHeaderNav : Bool) (navLinksCount : ℕ) : CheckResult :=
  if navCount = 0 ∧ ¬ hasHeaderNav then
    { name := "Navigation Structure", status := .fail, score := 0,
      message := "No clear navigation structure detected.",
      suggestion := some "Add a proper navigation menu using the <nav> element. Include links to your main pages." }
  else if navLinksCount < 3 then
    { name := "Navigation Structure", status := .warning, score := 5,
      message := "Navigation found but appears limited.",
      suggestion := some "Add more navigation links to help users find content (Home, About, Contact, Categories, etc.)." }
  else
    { name := "Navigation Structure", status := .pass, score := 10,
      message := "Good navigation structure detected with multiple links.",
      suggestion := none }

/-- `checkInternalLinks` of `adsense-checker.js` (same internal-link
classification as the SEO battery, different ladder: 3 and 8). -/
def checkInternalLinks (hrefs : List String) (url : String) : CheckResult :=
  let baseDomain := urlHostname url
  let internalLinks := (hrefs.filter (fun h => SEO.isInternalHref baseDomain h)).length
  if internalLinks < 3 then
    { name := "Internal Links", status := .fail, score := 0,
      message := "Very few internal links detected (" ++ toString internalLinks ++ ").",
      suggestion := some "Add more internal links to connect your pages. This helps users and search engines navigate your site." }
  else if internalLinks < 8 then
    { name := "Internal Links", status := .warning, score := 6,
      message := "Some internal links present (" ++ toString internalLinks ++ ").",
      suggestion := some "Consider adding more internal links to related content throughout your pages." }
  else
    { name := "Internal Links", status := .pass, score := 10,
      message := "Good internal linking structure (" ++ toString internalLinks ++ " internal links).",
      suggestion := none }

/-- `checkPrivacyPolicy` of `adsense-checker.js`: a link whose `href`
contains one of the privacy terms, or whose text contains `privacy`,
marks the page as having a privacy policy. -/
def checkPrivacyPolicy (anchors : List Anchor) : CheckResult :=
  let privacyTerms := ["privacy", "privacy-policy", "privacy_policy", "privacypolicy"]
  let hasPrivacyPolicy := anchors.any (fun a =>
    let href := lowerS (a.href.getD "")
    let text := lowerS a.text
    privacyTerms.any (fun term => sIncl term href || sIncl "privacy" text))
  if ¬ hasPrivacyPolicy then
    { name := "Privacy Policy Link", status := .fail, score := 0,
      message := "No Privacy Policy link detected.",
      suggestion := some "Add a Privacy Policy page and link to it from your navigation or footer. This is MANDATORY for AdSense approval." }
  else
    { name := "Privacy Policy Link", status := .pass, score := 10,
      message := "Privacy Policy link detected.",
      suggestion := none }

/-- `checkFooter` of `adsense-checker.js` (`none` = no footer element). -/
def checkFooter (footerLinksCount : Option ℕ) : CheckResult :=
  match footerLinksCount with
  | none =>
    { name := "Footer Section", status := .warning, score := 2,
      message := "No footer section detected.",
      suggestion := some "Add a footer with copyright, legal links, and navigation. Footers are expected on professional websites." }
  | some links =>
    if links < 2 then
      { name := "Footer Section", status := .warning, score := 3,
        message := "Footer found but appears minimal.",
        suggestion := some "Enhance your footer with links to important pages (About, Contact, Privacy Policy, Terms)." }
    else
      { name := "Footer Section", status := .pass, score := 5,
        message := "Proper footer section detected with navigation links.",
        suggestion := none }

/-- Outcome object returned by `analyzeHTML`. -/
structure AdsResult where
  score : ℕ
  url : String
  checks : List CheckResult
deriving DecidableEq

/-- Weights accumulated by `analyzeHTML`, in battery order. -/
def weights : List ℕ := [10, 10, 10, 15, 10, 10, 10, 10, 10, 5]

/-- `analyzeHTML` of `adsense-checker.js`. -/
def analyzeHTML (d : AdsDoc) (url : String) : Option AdsResult :=
  match checkMetaDescription d.metaDescription with
  | none => none
  | some c2 =>
    let checks := [
      checkTitleTag d.title,
      c2,
      checkH1Tag d.h1Texts,
      checkWordCount d.bodyTextNoScripts,
      checkImageAlts d.imageAlts,
      checkHTTPS url,
      checkNavigation d.navCount d.hasHeaderNav d.navLinksCount,
      checkInternalLinks d.linkHrefs url,
      checkPrivacyPolicy d.anchors,
      checkFooter d.footerLinksCount]
    let maxScore := weights.sum
    let totalScore := sumScores checks
    some { score := jsRound100 totalScore maxScore, url := url, checks := checks }

/-- Tier ladder of `displayResults` in `adsense-checker.js`: green from
80, yellow from 50. -/
def tierOf (score : ℕ) : Tier :=
  if score ≥ 80 then .top else if score ≥ 50 then .middle else .bottom

end Ads

/-- Character class `[\w.-]` of the contact-information email regex. -/
def isWddC (c : Char) : Bool := isWordC c || c == '.' || c == '-'

/-- Letter test up to case (`[a-z]` under the regex `i` flag). -/
def isAlphaCI (c : Char) : Bool := decide ('a' ≤ lc c ∧ lc c ≤ 'z')

/-- Search for a dot immediately followed by two letters. -/
def dotLetters : List Char → Bool
  | '.' :: a :: b :: rest => (isAlphaCI a && isAlphaCI b) || dotLetters (a :: b :: rest)
  | _ :: rest => dotLetters rest
  | [] => false

/-- Existence test for the email-like regex `/@[\w.-]+\.[a-z]{2,}/i`: an
`@` followed by a nonempty `[\w.-]` run containing, past its first
character, a dot followed by two letters. -/
def emailTest : List Char → Bool
  | [] => false
  | c :: cs =>
    (c == '@' && dotLetters ((cs.takeWhile isWddC).drop 1)) || emailTest cs

/-- Case-insensitive `endsWith`, the `/pattern$/i` suffix tests of the
custom-domain check. -/
def endsWCI (p s : String) : Bool :=
  leadsWith (((asL p).map lc).reverse) (((asL s).map lc).reverse)

/-- JavaScript `split('.')`. -/
def splitDotGo (cur : List Char) : List Char → List (List Char)
  | [] => [cur]
  | c :: cs => if c = '.' then cur :: splitDotGo [] cs else splitDotGo (cur ++ [c]) cs

namespace StaticCk

/-- Anchor as seen by the static checker: the `href` attribute
(`getAttribute`), the text content, and the resolved `href` property
used by `checkContactInfo`. -/
structure Anchor where
  href : Option String
  text : String
  resolved : String
deriving DecidableEq

/-- Projections of the parsed document queried by the static-site
battery (`static-checker.js`).  `rawHtml` is the unparsed source that
`check404Setup` string-searches. -/
structure StaticDoc where
  anchors : List Anchor
  hasNavElem : Bool
  navLinksCount : ℕ
  contentText : String
  title : Option String
  metaDescription : Option (Option String)
  hasViewport : Bool
  hasCharset : Bool
  rawHtml : String
  bodyText : String
  footerData : Option (ℕ × String)
deriving DecidableEq

/-- `detectPlatform` of `static-checker.js`. -/
def detectPlatform (url : String) : String :=
  let lowerUrl := lowerS url
  if sIncl "netlify.app" lowerUrl || sIncl "netlify.com" lowerUrl then "Netlify"
  else if sIncl "github.io" lowerUrl || sIncl "github.com" lowerUrl then "GitHub Pages"
  else if sIncl "vercel.app" lowerUrl || sIncl "vercel.com" lowerUrl then "Vercel"
  else if sIncl "surge.sh" lowerUrl then "Surge"
  else if sIncl "cloudflare" lowerUrl then "Cloudflare Pages"
  else if sIncl "render.com" lowerUrl then "Render"
  else "Custom/Unknown"

/-- `checkCustomDomain` of `static-checker.js`: a hostname ending in one
of the six platform suffixes fails with score 3; otherwise a hostname
with at least two dot-separated labels (and no `localhost`) passes. -/
def checkCustomDomain (url : String) (platform : String) : CheckResult :=
  let hostname := urlHostname url
  let isSubdomain :=
    endsWCI ".netlify.app" hostname || endsWCI ".github.io" hostname ||
    endsWCI ".vercel.app" hostname || endsWCI ".surge.sh" hostname ||
    endsWCI ".pages.dev" hostname || endsWCI ".onrender.com" hostname
  if isSubdomain then
    { name := "Custom Domain", status := .fail, score := 3,
      message := "Using " ++ platform ++ " subdomain. Not ideal for AdSense.",
      suggestion := some "Register a custom domain (yoursite.com). Most registrars offer domains for $10-15/year. This significantly improves AdSense approval chances." }
  else
    let parts := splitDotGo [] (asL hostname)
    if parts.length ≥ 2 ∧ ¬ sIncl "localhost" hostname then
      { name := "Custom Domain", status := .pass, score := 15,
        message := "Using a custom domain. Professional appearance.",
        suggestion := none }
    else
      { name := "Custom Domain", status := .warning, score := 8,
        message := "Could not definitively verify custom domain status.",
        suggestion := some "Ensure you are using a custom domain like yoursite.com for AdSense applications." }

/-- `checkHTTPS` of `static-checker.js` (no empty-URL branch here). -/
def checkHTTPS (url : String) : CheckResult :=
  if startsW "https://" (lowerS url) then
    { name := "HTTPS Security", status := .pass, score := 12,
      message := "Site uses HTTPS. Secure and trusted.",
      suggestion := none }
  else
    { name := "HTTPS Security", status := .fail, score := 0,
      message := "Site not using HTTPS.",
      suggestion := some "Enable HTTPS immediately. All major static hosts (Netlify, Vercel, GitHub Pages) provide free SSL certificates." }

/-- `checkEssentialPages` of `static-checker.js`. -/
def checkEssentialPages (anchors : List Anchor) : CheckResult :=
  let withHref := anchors.filter (fun a => a.href.isSome)
  let testCat (inHref : String → Bool) (inText : String → Bool) : Bool :=
    withHref.any (fun a => inHref (lowerS (a.href.getD "")) || inText (lowerS a.text))
  let hasPrivacy := testCat (fun h => sIncl "privacy" h) (fun t => sIncl "privacy" t)
  let hasAbout := testCat (fun h => sIncl "about" h) (fun t => sIncl "about" t)
  let hasContact := testCat (fun h => sIncl "contact" h) (fun t => sIncl "contact" t)
  let hasTerms := withHref.any (fun a =>
    sIncl "terms" (lowerS (a.href.getD "")) || sIncl "terms" (lowerS a.text) ||
    sIncl "tos" (lowerS (a.href.getD "")))
  let pagesFound := ([hasPrivacy, hasAbout, hasContact, hasTerms].filter (fun b => b)).length
  let missing :=
    (if ¬ hasPrivacy then ["Privacy Policy"] else []) ++
    (if ¬ hasAbout then ["About"] else []) ++
    (if ¬ hasContact then ["Contact"] else [])
  let missingStr := String.intercalate ", " missing
  if pagesFound ≤ 1 then
    { name := "Essential Pages", status := .fail, score := 3,
      message := "Missing essential pages: " ++ missingStr ++ ".",
      suggestion := some "Add Privacy Policy (mandatory), About, and Contact pages. These are required for AdSense approval." }
  else if pagesFound < 4 then
    { name := "Essential Pages", status := .warning, score := 10,
      message := "Most essential pages found (" ++ toString pagesFound ++ "/4). Missing: " ++ missingStr ++ ".",
      suggestion := some (if hasPrivacy then "Consider adding the missing pages." else "Add Privacy Policy immediately—it is mandatory for AdSense.") }
  else
    { name := "Essential Pages", status := .pass, score := 15,
      message := "All essential pages detected (Privacy, About, Contact, Terms).",
      suggestion := none }

/-- `checkNavigation` of `static-checker.js`. -/
def checkNavigation (hasNavElem : Bool) (navLinksCount : ℕ) : CheckResult :=
  if ¬ hasNavElem ∧ navLinksCount < 3 then
    { name := "Navigation Structure", status := .fail, score := 2,
      message := "No clear navigation found. Poor user experience.",
      suggestion := some "Add a navigation menu with links to main sections. Use <nav> tag for semantic markup." }
  else if navLinksCount < 5 then
    { name := "Navigation Structure", status := .warning, score := 8,
      message := "Limited navigation (" ++ toString navLinksCount ++ " links).",
      suggestion := some "Add more navigation links to help users find content easily." }
  else
    { name := "Navigation Structure", status := .pass, score := 12,
      message := "Good navigation structure (" ++ toString navLinksCount ++ " links).",
      suggestion := none }

/-- `checkContentDepth` of `static-checker.js` (the source also counts
`article`-like containers and `h2` elements into local variables that
no branch reads, so they are omitted here). -/
def checkContentDepth (contentText : String) : CheckResult :=
  let wordCount := wordCountOf contentText
  if wordCount < 300 then
    { name := "Content Depth", status := .fail, score := 3,
      message := "Very little content (~" ++ toString wordCount ++ " words). Likely rejection for thin content.",
      suggestion := some "Static sites need substantial content. Aim for 15-20 pages with 500+ words each." }
  else if wordCount < 600 then
    { name := "Content Depth", status := .warning, score := 8,
      message := "Light content on this page (~" ++ toString wordCount ++ " words).",
      suggestion := some "Expand content or ensure other pages have substantial depth. Homepage should be comprehensive." }
  else if wordCount < 1000 then
    { name := "Content Depth", status := .warning, score := 12,
      message := "Moderate content (~" ++ toString wordCount ++ " words).",
      suggestion := some "Good start. Ensure overall site has 15+ content pages." }
  else
    { name := "Content Depth", status := .pass, score := 15,
      message := "Good content depth (~" ++ toString wordCount ++ " words on this page).",
      suggestion := none }

/-- `checkMetaTags` of `static-checker.js`.  Here the optional chaining
on the description length feeds a `>` comparison, and in JavaScript
`undefined > 50` is `false`, so this check does not throw. -/
def checkMetaTags (title : Option String) (metaDescription : Option (Option String))
    (hasViewport hasCharset : Bool) : CheckResult :=
  let titleOk : Bool := match title with
    | some t => decide (strLen t > 10)
    | none => false
  let descOk : Bool := match metaDescription with
    | some (some c) => decide (strLen c > 50)
    | _ => false
  let found := (if titleOk then 1 else 0) + (if descOk then 1 else 0) +
    (if hasViewport then 1 else 0) + (if hasCharset then 1 else 0)
  if found < 2 then
    { name := "Meta Tags", status := .fail, score := 2,
      message := "Missing critical meta tags.",
      suggestion := some "Add title, meta description, viewport, and charset tags to all pages." }
  else if found < 4 then
    { name := "Meta Tags", status := .warning, score := 6,
      message := "Some meta tags missing (" ++ toString found ++ "/4 basic tags).",
      suggestion := some "Ensure all pages have complete meta tags for SEO and proper rendering." }
  else
    { name := "Meta Tags", status := .pass, score := 10,
      message := "Essential meta tags present.",
      suggestion := none }

/-- `check404Setup` of `static-checker.js` (the `has404Link` string
search is computed but unused; only the internal-link count decides). -/
def check404Setup (anchors : List Anchor) : CheckResult :=
  let linkCount := (anchors.filter (fun a => match a.href with
    | some h => h ≠ "" && !startsW "#" h && !startsW "http" h
    | none => false)).length
  if linkCount < 5 then
    { name := "404 & Error Handling", status := .warning, score := 4,
      message := "Cannot verify 404 page setup remotely.",
      suggestion := some "Create a 404.html page. Netlify, Vercel, and GitHub Pages use it automatically for missing pages." }
  else
    { name := "404 & Error Handling", status := .pass, score := 8,
      message := "Good internal linking suggests proper site structure.",
      suggestion := some "Verify you have a 404.html file in your root directory." }

/-- `checkContactInfo` of `static-checker.js`. -/
def checkContactInfo (bodyText : String) (anchors : List Anchor) : CheckResult :=
  let lowerBody := lowerS bodyText
  let hasEmail := emailTest (asL lowerBody) || sIncl "email" lowerBody ||
    anchors.any (fun a => startsW "mailto:" (a.href.getD ""))
  let hasContactLink := anchors.any (fun a =>
    sIncl "contact" (lowerS a.resolved) || sIncl "contact" (lowerS a.text))
  if ¬ hasEmail ∧ ¬ hasContactLink then
    { name := "Contact Information", status := .fail, score := 2,
      message := "No contact information detected.",
      suggestion := some "Add a contact page or visible email address. AdSense wants to see legitimate, contactable businesses." }
  else if hasEmail ∧ hasContactLink then
    { name := "Contact Information", status := .pass, score := 8,
      message := "Contact information and contact page found.",
      suggestion := none }
  else
    { name := "Contact Information", status := .warning, score := 5,
      message := "Some contact information found.",
      suggestion := some "Ensure you have a dedicated contact page with clear ways to reach you." }

/-- `checkFooter` of `static-checker.js`. -/
def checkFooter (footerData : Option (ℕ × String)) : CheckResult :=
  match footerData with
  | none =>
    { name := "Footer Section", status := .warning, score := 2,
      message := "No footer element detected.",
      suggestion := some "Add a footer with copyright, legal links, and branding. It signals a professional, complete website." }
  | some (links, text) =>
    let hasCopyright := sIncl "©" text || sIncl "copyright" (lowerS text)
    if links < 2 ∧ ¬ hasCopyright then
      { name := "Footer Section", status := .warning, score := 3,
        message := "Footer exists but appears minimal.",
        suggestion := some "Add links to legal pages and copyright notice." }
    else
      { name := "Footer Section", status := .pass, score := 5,
        message := "Complete footer with links and/or copyright.",
        suggestion := none }

/-- Outcome object returned by `analyzeStaticSite`. -/
structure StaticResult where
  score : ℕ
  url : String
  platform : String
  checks : List CheckResult
deriving DecidableEq

/-- Weights accumulated by `analyzeStaticSite`, in battery order. -/
def weights : List ℕ := [15, 12, 15, 12, 15, 10, 8, 8, 5]

/-- `analyzeStaticSite` of `static-checker.js` (no check of this battery
can throw, so the outcome is total). -/
def analyzeStaticSite (d : StaticDoc) (url : String) : StaticResult :=
  let platform := detectPlatform url
  let checks := [
    checkCustomDomain url platform,
    checkHTTPS url,
    checkEssentialPages d.anchors,
    checkNavigation d.hasNavElem d.navLinksCount,
    checkContentDepth d.contentText,
    checkMetaTags d.title d.metaDescription d.hasViewport d.hasCharset,
    check404Setup d.anchors,
    checkContactInfo d.bodyText d.anchors,
    checkFooter d.footerData]
  let maxScore := weights.sum
  let totalScore := sumScores checks
  { score := jsRound100 totalScore maxScore, url := url, platform := platform, checks := checks }

/-- Tier ladder of `displayResults` in `static-checker.js`: green from
80, yellow from 55. -/
def tierOf (score : ℕ) : Tier :=
  if score ≥ 80 then .top else if score ≥ 55 then .middle else .bottom

end StaticCk

/-- Lower-case letter test (`[a-z]`). -/
def isLowerAlpha (c : Char) : Bool := decide ('a' ≤ c ∧ c ≤ 'z')

/-- Upper-case letter test (`[A-Z]`). -/
def isUpperAlpha (c : Char) : Bool := decide ('A' ≤ c ∧ c ≤ 'Z')

/-- Digit test (`\d`). -/
def isDigitC (c : Char) : Bool := decide ('0' ≤ c ∧ c ≤ '9')

/-- Maximal runs of word characters.  A global regex such as
`/\b[a-z]+\b/g` or `/\b[a-z]{4,}\b/g` matches exactly the maximal
word-character runs that consist of letters only (and meet the length
bound): a run containing a digit or underscore offers no interior word
boundary, so it produces no match. -/
def runsGo (cur : List Char) : List Char → List (List Char)
  | [] => if cur.isEmpty then [] else [cur]
  | c :: cs =>
    if isWordC c then runsGo (cur ++ [c]) cs
    else if cur.isEmpty then runsGo [] cs
    else cur :: runsGo [] cs

/-- Maximal word-character runs of a character list. -/
def wordRuns (l : List Char) : List (List Char) := runsGo [] l

/-- First-occurrence deduplication, the key order of a JavaScript object
built by insertion (`Object.entries` iteration order) and of a `Set`. -/
def keysGo (seen : List (List Char)) : List (List Char) → List (List Char)
  | [] => []
  | w :: ws => if w ∈ seen then keysGo seen ws else w :: keysGo (w :: seen) ws

namespace LowValue

/-- Matches of `text.toLowerCase().match(/\b[a-z]+\b/g)`. -/
def vocabWords (l : List Char) : List (List Char) :=
  (wordRuns (l.map lc)).filter (fun r => r.all isLowerAlpha)

/-- Matches of `text.toLowerCase().match(/\b[a-z]{4,}\b/g)`. -/
def repWords (l : List Char) : List (List Char) :=
  (wordRuns (l.map lc)).filter (fun r => r.all isLowerAlpha && decide (r.length ≥ 4))

/-- `checkWordCount` of `low-value-analyzer.js`. -/
def checkWordCount (l : List Char) : CheckResult :=
  let count := ((jsSplitWs l).filter (fun w => w ≠ [])).length
  if count < 300 then
    { name := "Content Depth (Word Count)", status := .fail, score := 5,
      message := "Very thin content (" ++ toString count ++ " words). Likely to be flagged as low-value.",
      suggestion := some "Expand to at least 500-800 words with meaningful, helpful information." }
  else if count < 500 then
    { name := "Content Depth (Word Count)", status := .warning, score := 10,
      message := "Light content (" ++ toString count ++ " words). May appear thin to Google.",
      suggestion := some "Consider expanding to 600+ words with additional insights and examples." }
  else if count < 800 then
    { name := "Content Depth (Word Count)", status := .warning, score := 15,
      message := "Moderate length (" ++ toString count ++ " words). Acceptable but not comprehensive.",
      suggestion := some "For competitive topics, aim for 1000+ words of thorough coverage." }
  else
    { name := "Content Depth (Word Count)", status := .pass, score := 20,
      message := "Good content length (" ++ toString count ++ " words). Shows topical depth.",
      suggestion := none }

/-- Sentence-terminal punctuation (`[.!?]`). -/
def isPunctC (c : Char) : Bool := c == '.' || c == '!' || c == '?'

/-- JavaScript `text.split(/[.!?]+/)` (fuel-structural scanner). -/
def splitPunctGo : ℕ → List Char → List Char → List (List Char)
  | _, cur, [] => [cur]
  | 0, cur, _ => [cur]
  | fuel + 1, cur, c :: cs =>
    if isPunctC c then cur :: splitPunctGo fuel [] (cs.dropWhile isPunctC)
    else splitPunctGo fuel (cur ++ [c]) cs

/-- Sentence fragments of `checkSentenceVariety`. -/
def splitPunct (l : List Char) : List (List Char) := splitPunctGo l.length [] l

/-- `checkSentenceVariety` of `low-value-analyzer.js`.  The source
compares the coefficient of variation `stdDev / avg` with `0.2` and
`0.4`; since every sentence contributes at least one token, `avg > 0`,
and comparing `variance / avg ^ 2` with `0.04` and `0.16` is the same
test without the square root. -/
def checkSentenceVariety (l : List Char) : CheckResult :=
  let sentences := (splitPunct l).filter (fun s => strLen (jsTrim (ofL s)) > 0)
  if sentences.length < 5 then
    { name := "Sentence Variety", status := .warning, score := 7,
      message := "Too few sentences to analyze variety properly.",
      suggestion := some "Add more sentences to create varied, engaging content." }
  else
    let lengths := sentences.map (fun s => (jsSplitWs (asL (jsTrim (ofL s)))).length)
    let n : ℚ := lengths.length
    let avgLength : ℚ := ((lengths.map (fun k => (k : ℚ))).sum) / n
    let variance : ℚ := ((lengths.map (fun k => ((k : ℚ) - avgLength) ^ 2)).sum) / n
    let cvSq : ℚ := variance / avgLength ^ 2
    if cvSq < 1 / 25 then
      { name := "Sentence Variety", status := .fail, score := 4,
        message := "Very uniform sentence lengths. Reads robotically.",
        suggestion := some "Mix short, punchy sentences with longer, complex ones. Vary your rhythm." }
    else if cvSq < 4 / 25 then
      { name := "Sentence Variety", status := .warning, score := 10,
        message := "Moderate sentence variety. Could be more dynamic.",
        suggestion := some "Add more short sentences for emphasis and longer ones for depth." }
    else
      { name := "Sentence Variety", status := .pass, score := 15,
        message := "Good sentence length variety. Natural reading flow.",
        suggestion := none }

/-- Index of the last newline of a list, if any. -/
def lastIdxNl : List Char → Option ℕ
  | [] => none
  | c :: cs =>
    match lastIdxNl cs with
    | some k => some (k + 1)
    | none => if c = '\n' then some 0 else none

/-- JavaScript `text.split(/\n\s*\n/)`: a separator starts at a newline
and, after greedy backtracking, ends at the last newline of the
whitespace run that follows it (fuel-structural scanner). -/
def splitParaGo : ℕ → List Char → List Char → List (List Char)
  | _, cur, [] => [cur]
  | 0, cur, _ => [cur]
  | fuel + 1, cur, c :: cs =>
    if c = '\n' then
      match lastIdxNl (cs.takeWhile isWsC) with
      | some k => cur :: splitParaGo fuel [] (cs.drop (k + 1))
      | none => splitParaGo fuel (cur ++ [c]) cs
    else splitParaGo fuel (cur ++ [c]) cs

/-- Paragraph fragments of `checkParagraphs`. -/
def splitPara (l : List Char) : List (List Char) := splitParaGo l.length [] l

/-- `checkParagraphs` of `low-value-analyzer.js`.  When every fragment
is blank the source divides by zero, which in JavaScript produces
`Infinity`, and `Infinity > 150` holds; the emptiness disjunct encodes
that. -/
def checkParagraphs (l : List Char) : CheckResult :=
  let paragraphs := (splitPara l).filter (fun p => strLen (jsTrim (ofL p)) > 0)
  let wordCount := (jsSplitWs l).length
  if paragraphs.length ≤ 1 ∧ wordCount > 200 then
    { name := "Paragraph Structure", status := .fail, score := 2,
      message := "Content is one giant block of text. Very hard to read.",
      suggestion := some "Break content into paragraphs of 3-5 sentences each." }
  else if paragraphs.isEmpty ∨ (wordCount : ℚ) / (paragraphs.length : ℚ) > 150 then
    { name := "Paragraph Structure", status := .warning, score := 6,
      message := "Paragraphs are too long (~" ++
        toString ((2 * wordCount + paragraphs.length) / (2 * paragraphs.length)) ++ " words avg).",
      suggestion := some "Break long paragraphs into shorter, scannable chunks." }
  else if paragraphs.length < 3 ∧ wordCount > 300 then
    { name := "Paragraph Structure", status := .warning, score := 8,
      message := "Very few paragraph breaks for the content length.",
      suggestion := some "Add more paragraph breaks to improve readability." }
  else
    { name := "Paragraph Structure", status := .pass, score := 12,
      message := "Well-structured paragraphs (" ++ toString paragraphs.length ++ " paragraphs).",
      suggestion := none }

/-- `checkVocabulary` of `low-value-analyzer.js`. -/
def checkVocabulary (l : List Char) : CheckResult :=
  let words := vocabWords l
  if words.length < 50 then
    { name := "Vocabulary Richness", status := .warning, score := 7,
      message := "Not enough text to assess vocabulary properly.",
      suggestion := some "Add more content for a meaningful vocabulary analysis." }
  else
    let lexicalDensity : ℚ := ((keysGo [] words).length : ℚ) / (words.length : ℚ)
    if lexicalDensity < 3 / 10 then
      { name := "Vocabulary Richness", status := .fail, score := 4,
        message := "Very repetitive vocabulary. Content feels redundant.",
        suggestion := some "Use synonyms and varied phrasing. Expand your word choices." }
    else if lexicalDensity < 45 / 100 then
      { name := "Vocabulary Richness", status := .warning, score := 10,
        message := "Moderate vocabulary variety. Some repetition detected.",
        suggestion := some "Try using more diverse word choices throughout your content." }
    else
      { name := "Vocabulary Richness", status := .pass, score := 15,
        message := "Rich vocabulary with good word variety.",
        suggestion := none }

/-- Stop words excluded from the overuse report. -/
def stopWords : List (List Char) :=
  (["this", "that", "with", "from", "have", "been", "more", "their", "when",
    "which", "about", "would", "there", "some", "what", "your", "other",
    "into", "also", "than", "only", "these", "very", "just", "over", "such",
    "most", "even", "after", "make", "like", "them", "each", "will", "they",
    "many", "were", "being", "could", "much", "does", "well", "before",
    "should"]).map asL

/-- Overused words of `checkRepetition`: frequency-map entries in first
occurrence order whose count exceeds `max(3, 3% of the word total)`,
minus stop words. -/
def overused (l : List Char) : List (List Char × ℕ) :=
  let words := repWords l
  let threshold : ℚ := max 3 ((words.length : ℚ) * (3 / 100))
  (((keysGo [] words).map (fun w => (w, words.count w))).filter
      (fun e => decide ((e.2 : ℚ) > threshold))).filter
    (fun e => ¬ stopWords.contains e.1)

/-- `checkRepetition` of `low-value-analyzer.js`. -/
def checkRepetition (l : List Char) : CheckResult :=
  let over := overused l
  if over.length > 5 then
    { name := "Keyword/Word Repetition", status := .fail, score := 3,
      message := "Many overused words detected: " ++
        String.intercalate ", " ((over.take 5).map (fun e => ofL e.1)),
      suggestion := some "Reduce repetition by using synonyms and restructuring sentences." }
  else if over.length > 2 then
    { name := "Keyword/Word Repetition", status := .warning, score := 10,
      message := "Some word repetition: " ++
        String.intercalate ", " (over.map (fun e => ofL e.1)),
      suggestion := some "Consider using synonyms for frequently repeated terms." }
  else
    { name := "Keyword/Word Repetition", status := .pass, score := 15,
      message := "No excessive word repetition detected.",
      suggestion := none }

/-- Filler words of `checkFillerWords`. -/
def fillerWords : List (List Char) :=
  (["very", "really", "actually", "basically", "literally", "just", "simply",
    "quite", "rather", "somewhat", "perhaps", "maybe", "probably",
    "certainly", "definitely", "absolutely", "extremely", "incredibly",
    "amazingly", "essentially"]).map asL

/-- Fixed-point formatting of a non-negative rational to one decimal,
modelling `Number.prototype.toFixed(1)`. -/
def fixed1 (q : ℚ) : String :=
  let n := (q * 10 + 1 / 2).floor.toNat
  toString (n / 10) ++ "." ++ toString (n % 10)

/-- `checkFillerWords` of `low-value-analyzer.js`: tokens of the
lower-cased text, stripped of non-letters, matched against the filler
list. -/
def checkFillerWords (l : List Char) : CheckResult :=
  let words := jsSplitWs (l.map lc)
  let fillerCount := (words.filter (fun w => fillerWords.contains (w.filter isLowerAlpha))).length
  let fillerRatio : ℚ := (fillerCount : ℚ) / (words.length : ℚ)
  if fillerRatio > 5 / 100 then
    { name := "Filler Words", status := .fail, score := 2,
      message := "High filler word usage (" ++ toString fillerCount ++ " filler words, " ++
        fixed1 (fillerRatio * 100) ++ "%).",
      suggestion := some "Remove unnecessary filler words like \"very,\" \"really,\" \"actually.\"" }
  else if fillerRatio > 25 / 1000 then
    { name := "Filler Words", status := .warning, score := 6,
      message := "Moderate filler word usage (" ++ toString fillerCount ++ " filler words).",
      suggestion := some "Consider reducing filler words for more direct writing." }
  else
    { name := "Filler Words", status := .pass, score := 10,
      message := "Low filler word usage. Direct, purposeful writing.",
      suggestion := none }

/-- Quote-pair search for one quote character: the regex alternative
`q[^q]+q` has a match exactly when two occurrences of the quote are
separated by at least one other character. -/
def quoteGo (q : Char) (openGap : Option Bool) : List Char → Bool
  | [] => false
  | c :: cs =>
    if c = q then
      match openGap with
      | some true => true
      | _ => quoteGo q (some false) cs
    else
      match openGap with
      | some _ => quoteGo q (some true) cs
      | none => quoteGo q none cs

/-- Existence of a `\b\d+\b` match: a maximal digit run flanked by
non-word characters (or the ends of the text). -/
def numScan : ℕ → Bool → List Char → Bool
  | _, _, [] => false
  | 0, _, _ => false
  | fuel + 1, prevW, c :: cs =>
    if isDigitC c ∧ ¬ prevW then
      let k := (cs.takeWhile isDigitC).length
      let rest := cs.drop k
      (match rest with
       | [] => true
       | d :: _ => !isWordC d) || numScan fuel true rest
    else numScan fuel (isWordC c) cs

/-- Bullet test after optional leading whitespace (`\s*[-*•]\s`). -/
def bulletHere (l : List Char) : Bool :=
  match l.dropWhile isWsC with
  | b :: d :: _ => (b == '-' || b == '*' || b == '•') && isWsC d
  | _ => false

/-- Line-анchored alternative `^\s*[-*•]\s` of the list regex under the
`m` flag. -/
def listA : Bool → List Char → Bool
  | _, [] => false
  | atStart, c :: cs => (atStart && bulletHere (c :: cs)) || listA (c == '\n') cs

/-- Unanchored alternative `\d+\.\s` of the list regex: some digit
immediately followed by a dot and a whitespace character. -/
def listB : List Char → Bool
  | a :: b :: c :: rest => (isDigitC a && b == '.' && isWsC c) || listB (b :: c :: rest)
  | _ => false

/-- `checkEngagement` of `low-value-analyzer.js`. -/
def checkEngagement (l : List Char) : CheckResult :=
  let hasQuestions := l.any (fun c => c == '?')
  let hasExclamations := l.any (fun c => c == '!')
  let hasQuotes := quoteGo '"' none l || quoteGo '\'' none l
  let hasNumbers := numScan l.length false l
  let hasLists := listA true l || listB l
  let signals := (if hasQuestions then 1 else 0) + (if hasExclamations then 1 else 0) +
    (if hasQuotes then 1 else 0) + (if hasNumbers then 1 else 0) + (if hasLists then 1 else 0)
  if signals = 0 then
    { name := "Engagement Elements", status := .fail, score := 1,
      message := "No engagement elements detected. Content may feel flat.",
      suggestion := some "Add questions, examples with numbers, quotes, or lists to engage readers." }
  else if signals < 3 then
    { name := "Engagement Elements", status := .warning, score := 5,
      message := "Some engagement elements present but could use more variety.",
      suggestion := some "Consider adding rhetorical questions, data points, or expert quotes." }
  else
    { name := "Engagement Elements", status := .pass, score := 8,
      message := "Good variety of engagement elements throughout content.",
      suggestion := none }

/-- Count of `\b\d+%` matches: a maximal digit run opened at a word
boundary and immediately followed by a percent sign. -/
def pctScan : ℕ → Bool → List Char → ℕ
  | _, _, [] => 0
  | 0, _, _ => 0
  | fuel + 1, prevW, c :: cs =>
    if isDigitC c ∧ ¬ prevW then
      let k := (cs.takeWhile isDigitC).length
      if (cs.drop k).head? = some '%' then 1 + pctScan fuel false (cs.drop (k + 1))
      else pctScan fuel true (cs.drop k)
    else pctScan fuel (isWordC c) cs

/-- Count of `\b(19|20)\d{2}\b` matches. -/
def yearScan : ℕ → Bool → List Char → ℕ
  | _, _, [] => 0
  | 0, _, _ => 0
  | fuel + 1, prevW, c :: cs =>
    if ¬ prevW ∧ (leadsWith (asL "19") (c :: cs) ∨ leadsWith (asL "20") (c :: cs)) ∧
        (cs.drop 1).length ≥ 2 ∧ ((cs.drop 1).take 2).all isDigitC ∧
        (match (cs.drop 3).head? with
         | none => true
         | some e => !isWordC e) = true then
      1 + yearScan fuel true (cs.drop 3)
    else yearScan fuel (isWordC c) cs

/-- Count of `\$[\d,]+` matches. -/
def moneyScan : ℕ → List Char → ℕ
  | _, [] => 0
  | 0, _ => 0
  | fuel + 1, c :: cs =>
    if c = '$' then
      let k := (cs.takeWhile (fun d => isDigitC d || d == ',')).length
      if k = 0 then moneyScan fuel cs else 1 + moneyScan fuel (cs.drop k)
    else moneyScan fuel cs

/-- Capitalized word (`[A-Z][a-z]+`) at the head of the list whose
letter run is followed by a non-word character or the end; returns the
consumed length. -/
def capWordAt : List Char → Option ℕ
  | [] => none
  | c :: cs =>
    if isUpperAlpha c then
      let lows := cs.takeWhile isLowerAlpha
      if lows.isEmpty then none
      else
        match cs.drop lows.length with
        | [] => some (1 + lows.length)
        | d :: _ => if isWordC d then none else some (1 + lows.length)
    else none

/-- Greedy continuation `(?:\s[A-Z][a-z]+)+` of the proper-noun regex:
number of further capitalized words, and total characters consumed by
them and their separating whitespace. -/
def nounExtGo : ℕ → List Char → ℕ × ℕ
  | _, [] => (0, 0)
  | 0, _ => (0, 0)
  | fuel + 1, w :: rest =>
    if isWsC w then
      match capWordAt rest with
      | some k =>
        let p := nounExtGo fuel (rest.drop k)
        (p.1 + 1, 1 + k + p.2)
      | none => (0, 0)
    else (0, 0)

/-- Count of `\b[A-Z][a-z]+(?:\s[A-Z][a-z]+)+\b` matches (two or more
capitalized words joined by single whitespace characters). -/
def nounScan : ℕ → Bool → List Char → ℕ
  | _, _, [] => 0
  | 0, _, _ => 0
  | fuel + 1, prevW, c :: cs =>
    if ¬ prevW then
      match capWordAt (c :: cs) with
      | some k =>
        let p := nounExtGo fuel ((c :: cs).drop k)
        if p.1 ≥ 1 then 1 + nounScan fuel true ((c :: cs).drop (k + p.2))
        else nounScan fuel (isWordC c) cs
      | none => nounScan fuel (isWordC c) cs
    else nounScan fuel (isWordC c) cs

/-- `checkSpecificity` of `low-value-analyzer.js`: each of the four
pattern counts is capped at 3 before summing. -/
def checkSpecificity (l : List Char) : CheckResult :=
  let specificityScore :=
    min (pctScan l.length false l) 3 + min (yearScan l.length false l) 3 +
    min (moneyScan l.length l) 3 + min (nounScan l.length false l) 3
  if specificityScore = 0 then
    { name := "Specificity & Details", status := .warning, score := 1,
      message := "No specific data, dates, or names detected.",
      suggestion := some "Add statistics, years, names, or other specific details to add credibility." }
  else if specificityScore < 4 then
    { name := "Specificity & Details", status := .warning, score := 3,
      message := "Some specific details present but light on data.",
      suggestion := some "Consider adding more concrete examples and statistics." }
  else
    { name := "Specificity & Details", status := .pass, score := 5,
      message := "Good use of specific details and data points.",
      suggestion := none }

/-- Outcome object returned by `analyzeContent`. -/
structure ContentResult where
  score : ℕ
  wordCount : ℕ
  checks : List CheckResult
deriving DecidableEq

/-- Weights accumulated by `analyzeContent`, in battery order. -/
def weights : List ℕ := [20, 15, 12, 15, 15, 10, 8, 5]

/-- `analyzeContent` of `low-value-analyzer.js` (total: no check of
this battery can throw).  The reported `wordCount` field is the raw
`text.split(/\s+/).length`. -/
def analyzeContent (text : String) : ContentResult :=
  let l := asL text
  let checks := [
    checkWordCount l,
    checkSentenceVariety l,
    checkParagraphs l,
    checkVocabulary l,
    checkRepetition l,
    checkFillerWords l,
    checkEngagement l,
    checkSpecificity l]
  let maxScore := weights.sum
  let totalScore := sumScores checks
  { score := jsRound100 totalScore maxScore, wordCount := (jsSplitWs l).length, checks := checks }

/-- Tier ladder of `displayResults` in `low-value-analyzer.js`: green
from 75, yellow from 50. -/
def tierOf (score : ℕ) : Tier :=
  if score ≥ 75 then .top else if score ≥ 50 then .middle else .bottom

end LowValue

/-- Character canonicalisation: lower-casing when the regex carries the
`i` flag, the identity otherwise. -/
def canon (ci : Bool) (c : Char) : Char := if ci then lc c else c

/-- Case-optional prefix test: the pattern matches at the head of the
text. -/
def ciLeads (ci : Bool) : List Char → List Char → Bool
  | [], _ => true
  | _ :: _, [] => false
  | p :: ps, c :: cs => (canon ci p == canon ci c) && ciLeads ci ps cs

/-- Trailing word-boundary test: the character of `s` just after a
pattern of length `p.length`, if any, is not a word character. -/
def bAfterF (p s : List Char) : Bool :=
  match s.drop p.length with
  | [] => true
  | d :: _ => !isWordC d

/-- Whole-word match at the head of `s` under previous-character
wordness `w`: the two `\b` anchors of `/\bpat\b/` require a non-word
character (or edge) on both sides. -/
def matchB (ci : Bool) (p : List Char) (w : Bool) (s : List Char) : Bool :=
  !w && ciLeads ci p s && bAfterF p s

/-- Existence of a whole-word match of `p` anywhere in the text, where
`w` gives the wordness of the character just before the text (`false`
at a string boundary). -/
def hasOcc (ci : Bool) (p : List Char) : Bool → List Char → Bool
  | _, [] => false
  | w, c :: cs => matchB ci p w (c :: cs) || hasOcc ci p (isWordC c) cs

/-- List form of a nonempty pattern. -/
def patL (p : Char × List Char) : List Char := p.1 :: p.2

/-- Wordness of the last pattern character: after a replacement the
regex engine continues scanning the original text right after the
matched occurrence, whose final character has the same wordness as the
pattern's (case changes preserve wordness). -/
def patLastW (p : Char × List Char) : Bool :=
  match p.2.getLast? with
  | some d => isWordC d
  | none => isWordC p.1

/-- Scanner for `text.replace(/\bpat\b/g, rep)` (with optional `i`):
leftmost whole-word occurrences are replaced by `rep`; boundary tests
use the characters of the original text. -/
def replGo (ci : Bool) (p : Char × List Char) (r : List Char) :
    ℕ → Bool → List Char → List Char
  | _, _, [] => []
  | 0, _, l => l
  | fuel + 1, w, c :: cs =>
    if matchB ci (patL p) w (c :: cs) then
      r ++ replGo ci p r fuel (patLastW p) ((c :: cs).drop (patL p).length)
    else c :: replGo ci p r fuel (isWordC c) cs

/-- Whole-word replace-all on strings; an empty pattern never occurs in
the dictionaries and is treated as a no-op. -/
def replaceWordStr (ci : Bool) (pat rep s : String) : String :=
  match asL pat with
  | [] => s
  | p0 :: ps => ofL (replGo ci (p0, ps) (asL rep) (asL s).length false (asL s))

/-- Scanner for the unanchored `text.replace(/pat/gi, rep)` used by the
casual dictionary: no word-boundary tests, so the pattern is replaced
wherever it occurs, including inside longer words. -/
def replCIGo (p : Char × List Char) (r : List Char) : ℕ → List Char → List Char
  | _, [] => []
  | 0, l => l
  | fuel + 1, c :: cs =>
    if ciLeads true (patL p) (c :: cs) then
      r ++ replCIGo p r fuel ((c :: cs).drop (patL p).length)
    else c :: replCIGo p r fuel cs

/-- Unanchored case-insensitive replace-all on strings. -/
def replaceCIStr (pat rep s : String) : String :=
  match asL pat with
  | [] => s
  | p0 :: ps => ofL (replCIGo (p0, ps) (asL rep) (asL s).length (asL s))

namespace Hum

/-- Tones offered by the humanizer form. -/
inductive Tone where
  | casual | story | professional
deriving DecidableEq

/-- `splitIntoSentences` of `content-humanizer.js`: split at whitespace
runs preceded by sentence-ending punctuation (`/(?<=[.!?])\s+/`) and
drop blank fragments. -/
def splitSentGo : ℕ → List Char → List Char → List (List Char)
  | _, cur, [] => [cur]
  | 0, cur, _ => [cur]
  | fuel + 1, cur, c :: cs =>
    if isWsC c ∧ (match cur.getLast? with
      | some p => LowValue.isPunctC p
      | none => false) = true then
      cur :: splitSentGo fuel [] (cs.dropWhile isWsC)
    else splitSentGo fuel (cur ++ [c]) cs

/-- Sentence list of a text. -/
def splitIntoSentences (text : String) : List String :=
  ((splitSentGo (asL text).length [] (asL text)).map ofL).filter
    (fun s => strLen (jsTrim s) > 0)

/-- Casual substitution table (the source object literal repeats the
`utilize` key, which collapses to the single first entry), applied with
`new RegExp(key, 'gi')` — no word anchors. -/
def casualReplacements : List (String × String) := [
  ("utilize", "use"), ("implement", "put in place"), ("demonstrate", "show"),
  ("facilitate", "help with"), ("regarding", "about"), ("concerning", "about"),
  ("commence", "start"), ("terminate", "end"), ("endeavor", "try"),
  ("sufficient", "enough"), ("numerous", "lots of"), ("approximately", "about"),
  ("subsequently", "then"), ("nevertheless", "but still"), ("furthermore", "also"),
  ("therefore", "so"), ("however", "but"), ("additionally", "plus"),
  ("consequently", "so"), ("In conclusion", "So basically"),
  ("It is important to note that", "Keep in mind that"),
  ("It should be noted that", "Just so you know"), ("In order to", "To"),
  ("Due to the fact that", "Because"), ("For the purpose of", "To"),
  ("In the event that", "If"), ("At this point in time", "Now"),
  ("In the near future", "Soon"), ("In spite of the fact that", "Even though")]

/-- `applyCasualTone`: each dictionary entry is replaced everywhere it
occurs, case-insensitively, in dictionary order, within each sentence. -/
def applyCasualTone (sentences : List String) : List String :=
  sentences.map (fun sentence =>
    casualReplacements.foldl (fun acc e => replaceCIStr e.1 e.2 acc) sentence)

/-- Story substitution table, applied with `new RegExp("\\b" + key + "\\b", 'gi')`. -/
def storyReplacements : List (String × String) := [
  ("utilize", "work with"), ("implement", "bring to life"),
  ("demonstrate", "show firsthand"), ("experience", "journey through"),
  ("discover", "stumble upon"), ("learn", "come to realize"),
  ("understand", "grasp"), ("important", "crucial"),
  ("significant", "remarkable"), ("interesting", "fascinating")]

/-- `applyStoryTone`: whole-word, case-insensitive substitutions. -/
def applyStoryTone (sentences : List String) : List String :=
  sentences.map (fun sentence =>
    storyReplacements.foldl (fun acc e => replaceWordStr true e.1 e.2 acc) sentence)

/-- Professional substitution table, applied with word anchors like the
story table. -/
def professionalReplacements : List (String × String) := [
  ("lots of", "numerous"), ("a lot", "significantly"), ("really", "substantially"),
  ("very", "considerably"), ("get", "obtain"), ("got", "obtained"),
  ("show", "demonstrate"), ("use", "utilize"), ("help", "assist"),
  ("need", "require"), ("want", "desire"), ("think", "believe"),
  ("know", "understand"), ("good", "beneficial"), ("bad", "detrimental"),
  ("big", "substantial"), ("small", "minimal")]

/-- `applyProfessionalTone`: whole-word, case-insensitive substitutions. -/
def applyProfessionalTone (sentences : List String) : List String :=
  sentences.map (fun sentence =>
    professionalReplacements.foldl (fun acc e => replaceWordStr true e.1 e.2 acc) sentence)

/-- Introductory phrases of `varySentenceStructure`. -/
def intros : List String :=
  ["Interestingly, ", "What's worth noting is that ", "Here's the thing: ",
   "The reality is, ", "Looking at this closely, "]

/-- Leading alternatives of the intro-detection regex
`/^(Interestingly|What's|Here's|The reality|Looking)/`. -/
def introStarts : List String :=
  ["Interestingly", "What's", "Here's", "The reality", "Looking"]

/-- Lower-case the first character, as
`sentence.charAt(0).toLowerCase() + sentence.slice(1)` does. -/
def lowerFirst (s : String) : String :=
  match asL s with
  | [] => s
  | c :: cs => ofL (lc c :: cs)

/-- `Math.floor(q * n)` for a draw of the unit interval represented in
permille: a raw draw `q ∈ [0, 1)` is modelled by `⌊1000 q⌋`, which
determines every branch the source takes (comparisons against 0.7 and
0.5, and the floor of `q * 5`), so streams of permille values cover all
executions of the unseeded random source. -/
def floorIdx (q : ℕ) (n : ℕ) : ℕ := q * n / 1000

/-- `varySentenceStructure`: every third sentence may, depending on the
random source, receive one of the fixed introductory phrases.  The
random source is modelled as a stream of unit-interval rationals
consumed in draw order (`k` is the next stream index). -/
def varyGo (rng : ℕ → ℕ) : ℕ → ℕ → List String → List String × ℕ
  | _, k, [] => ([], k)
  | i, k, s :: ss =>
    if i % 3 ≠ 0 then
      let p := varyGo rng (i + 1) k ss
      (s :: p.1, p.2)
    else
      let r := rng k
      if r > 700 ∧ ¬ (introStarts.any (fun t => startsW t s)) then
        let intro := intros.getD (floorIdx (rng (k + 1)) intros.length) ""
        let p := varyGo rng (i + 1) (k + 2) ss
        ((intro ++ lowerFirst s) :: p.1, p.2)
      else
        let p := varyGo rng (i + 1) (k + 1) ss
        (s :: p.1, p.2)

/-- Transition phrases per tone (`addNaturalTransitions`). -/
def transitionsFor (tone : Tone) : List String :=
  match tone with
  | .casual => ["Also, ", "And ", "Plus, ", "So ", "Now, "]
  | .story => ["Then, ", "Next, ", "Meanwhile, ", "Eventually, ", "As it turns out, "]
  | .professional => ["Furthermore, ", "Additionally, ", "Moreover, ", "Subsequently, ", "Consequently, "]

/-- Leading alternatives of the transition-detection regex. -/
def transStarts : List String :=
  ["Furthermore", "Additionally", "Moreover", "Also", "And", "Plus", "Then", "Next"]

/-- `addNaturalTransitions`: sentences at positive indices divisible by
four may receive a transition phrase; the index draw happens before the
already-has-transition test, as in the source. -/
def transGo (rng : ℕ → ℕ) (transitions : List String) : ℕ → ℕ → List String → List String × ℕ
  | _, k, [] => ([], k)
  | i, k, s :: ss =>
    if i > 0 ∧ i % 4 = 0 then
      let r := rng k
      if r > 500 then
        let transition := transitions.getD (floorIdx (rng (k + 1)) transitions.length) ""
        if ¬ (transStarts.any (fun t => startsW t s)) then
          let p := transGo rng transitions (i + 1) (k + 2) ss
          ((transition ++ lowerFirst s) :: p.1, p.2)
        else
          let p := transGo rng transitions (i + 1) (k + 2) ss
          (s :: p.1, p.2)
      else
        let p := transGo rng transitions (i + 1) (k + 1) ss
        (s :: p.1, p.2)
    else
      let p := transGo rng transitions (i + 1) k ss
      (s :: p.1, p.2)

/-- Common words exempt from de-duplication in `removeRepetition`. -/
def commonWords : List String :=
  ["the", "a", "an", "and", "or", "but", "in", "on", "at", "to", "for"]

/-- Word loop of `removeRepetition`: drop a word equal (up to case) to
the previous kept word unless it is a common word. -/
def removeRepGo : String → List String → List String
  | _, [] => []
  | lastW, w :: ws =>
    if lowerS w = lowerS lastW ∧ ¬ commonWords.contains (lowerS w) then
      removeRepGo lastW ws
    else w :: removeRepGo w ws

/-- `removeRepetition` of `content-humanizer.js`. -/
def removeRepetition (text : String) : String :=
  String.intercalate " " (removeRepGo "" ((jsSplitWs (asL text)).map ofL))

/-- Contraction rules applied for the casual and story tones; the third
component records whether the regex carries the `i` flag (`/\bI am\b/g`
is case-sensitive). -/
def casualContractionRules : List (String × String × Bool) := [
  ("do not", "don't", true), ("cannot", "can't", true), ("will not", "won't", true),
  ("should not", "shouldn't", true), ("would not", "wouldn't", true),
  ("could not", "couldn't", true), ("it is", "it's", true), ("that is", "that's", true),
  ("what is", "what's", true), ("there is", "there's", true), ("I am", "I'm", false),
  ("you are", "you're", true), ("they are", "they're", true), ("we are", "we're", true)]

/-- Contraction expansions applied for the professional tone
(`/\bI'm\b/g` is case-sensitive). -/
def professionalContractionRules : List (String × String × Bool) := [
  ("don't", "do not", true), ("can't", "cannot", true), ("won't", "will not", true),
  ("shouldn't", "should not", true), ("wouldn't", "would not", true),
  ("couldn't", "could not", true), ("it's", "it is", true), ("that's", "that is", true),
  ("I'm", "I am", false)]

/-- Sequential application of a contraction rule list. -/
def applyRules (rules : List (String × String × Bool)) (s : String) : String :=
  rules.foldl (fun acc rule => replaceWordStr rule.2.2 rule.1 rule.2.1 acc) s

/-- `addHumanTouches` of `content-humanizer.js`. -/
def addHumanTouches (text : String) (tone : Tone) : String :=
  match tone with
  | .casual => applyRules casualContractionRules text
  | .story => applyRules casualContractionRules text
  | .professional => applyRules professionalContractionRules text

/-- `humanizeText` of `content-humanizer.js`: sentence segmentation,
tone dictionary, structural variation, transitions, de-duplication,
contraction normalisation. -/
def humanizeText (text : String) (tone : Tone) (rng : ℕ → ℕ) : String :=
  let sentences := splitIntoSentences text
  let toned := match tone with
    | .casual => applyCasualTone sentences
    | .story => applyStoryTone sentences
    | .professional => applyProfessionalTone sentences
  let varied := varyGo rng 0 0 toned
  let trans := transGo rng (transitionsFor tone) 0 varied.2 varied.1
  let deduped := removeRepetition (String.intercalate " " trans.1)
  addHumanTouches deduped tone

end Hum

/-- Normalising a total by the weight sum 100 is the identity. -/
theorem jsRound100_self (t : ℕ) : jsRound100 t 100 = t := by
  unfold jsRound100
  omega

namespace SEO

/-- The empty parsed document: no title, no meta description, no
headings, no images, no links, no viewport, no canonical. -/
def emptyDoc : SEODoc :=
  { title := none, metaDescription := none, h1Texts := [], h2Count := 0, h3Count := 0,
    imageAlts := [], linkHrefs := [], viewport := none, canonical := none }

theorem seo_checkTitle_score_le (t : Option String) : (checkTitle t).score ≤ 15 := by
  unfold checkTitle
  dsimp only
  split_ifs <;> simp

theorem seo_checkMetaDescription_score_le (m : Option (Option String)) (c : CheckResult)
    (h : checkMetaDescription m = some c) : c.score ≤ 12 := by
  rcases m with _ | (_ | a) <;>
    simp only [checkMetaDescription, Option.map_none', Option.map_some',
      Option.some.injEq] at h
  · rw [← h]
    simp
  · exact Option.noConfusion h
  · split_ifs at h <;> (rw [← h]; try simp)

theorem seo_checkH1Tags_score_le (h1s : List String) : (checkH1Tags h1s).score ≤ 12 := by
  unfold checkH1Tags
  rcases h1s with _ | ⟨t, rest⟩
  · simp
  · dsimp only
    split_ifs <;> simp

theorem seo_checkHeadingHierarchy_score_le (a b c : ℕ) :
    (checkHeadingHierarchy a b c).score ≤ 10 := by
  unfold checkHeadingHierarchy
  split_ifs <;> simp

theorem seo_checkImageAlts_score_le (alts : List (Option String)) :
    (checkImageAlts alts).score ≤ 10 := by
  unfold checkImageAlts
  dsimp only
  split_ifs <;> simp

theorem seo_checkInternalLinks_score_le (hs : List String) (u : String) :
    (checkInternalLinks hs u).score ≤ 10 := by
  unfold checkInternalLinks
  dsimp only
  split_ifs <;> simp

theorem seo_checkExternalLinks_score_le (hs : List String) (u : String) :
    (checkExternalLinks hs u).score ≤ 8 := by
  unfold checkExternalLinks
  dsimp only
  split_ifs <;> simp

theorem seo_checkHTTPS_score_le (u : String) : (checkHTTPS u).score ≤ 10 := by
  unfold checkHTTPS
  split_ifs <;> simp

theorem seo_checkViewport_score_le (v : Option (Option String)) :
    (checkViewport v).score ≤ 8 := by
  unfold checkViewport
  rcases v with _ | attr
  · simp
  · dsimp only
    split_ifs <;> simp

theorem seo_checkCanonical_score_le (cn : Option (Option String)) :
    (checkCanonical cn).score ≤ 5 := by
  unfold checkCanonical
  rcases cn with _ | (_ | h)
  · simp
  · simp
  · dsimp only
    split_ifs <;> simp

end SEO

namespace Ads

theorem ads_checkTitleTag_score_le (t : Option String) : (checkTitleTag t).score ≤ 10 := by
  unfold checkTitleTag
  dsimp only
  split_ifs <;> simp

theorem ads_checkMetaDescription_score_le (m : Option (Option String)) (c : CheckResult)
    (h : checkMetaDescription m = some c) : c.score ≤ 10 := by
  rcases m with _ | (_ | a) <;>
    simp only [checkMetaDescription, Option.map_none', Option.map_some',
      Option.some.injEq] at h
  · rw [← h]
    simp
  · exact Option.noConfusion h
  · split_ifs at h <;> (rw [← h]; try simp)

theorem ads_checkH1Tag_score_le (h1s : List String) : (checkH1Tag h1s).score ≤ 10 := by
  unfold checkH1Tag
  rcases h1s with _ | ⟨t, rest⟩
  · simp
  · dsimp only
    split_ifs <;> simp

theorem ads_checkWordCount_score_le (s : String) : (checkWordCount s).score ≤ 15 := by
  unfold checkWordCount
  dsimp only
  split_ifs <;> simp

theorem ads_checkImageAlts_score_le (alts : List (Option String)) :
    (checkImageAlts alts).score ≤ 10 := by
  unfold checkImageAlts
  dsimp only
  split_ifs <;> simp

theorem ads_checkHTTPS_score_le (u : String) : (checkHTTPS u).score ≤ 10 := by
  unfold checkHTTPS
  split_ifs <;> simp

theorem ads_checkNavigation_score_le (n : ℕ) (b : Bool) (k : ℕ) :
    (checkNavigation n b k).score ≤ 10 := by
  unfold checkNavigation
  split_ifs <;> simp

theorem ads_checkInternalLinks_score_le (hs : List String) (u : String) :
    (checkInternalLinks hs u).score ≤ 10 := by
  unfold checkInternalLinks
  dsimp only
  split_ifs <;> simp

theorem ads_checkPrivacyPolicy_score_le (anchors : List Anchor) :
    (checkPrivacyPolicy anchors).score ≤ 10 := by
  unfold checkPrivacyPolicy
  dsimp only
  split_ifs <;> simp

theorem ads_checkFooter_score_le (f : Option ℕ) : (checkFooter f).score ≤ 5 := by
  unfold checkFooter
  rcases f with _ | k
  · simp
  · dsimp only
    split_ifs <;> simp

end Ads

namespace StaticCk

theorem static_checkCustomDomain_score_le (u p : String) : (checkCustomDomain u p).score ≤ 15 := by
  unfold checkCustomDomain
  dsimp only
  split_ifs <;> simp

theorem static_checkHTTPS_score_le (u : String) : (checkHTTPS u).score ≤ 12 := by
  unfold checkHTTPS
  split_ifs <;> simp

theorem static_checkEssentialPages_score_le (a : List Anchor) :
    (checkEssentialPages a).score ≤ 15 := by
  unfold checkEssentialPages
  dsimp only
  split_ifs <;> simp

theorem static_checkNavigation_score_le (b : Bool) (k : ℕ) :
    (checkNavigation b k).score ≤ 12 := by
  unfold checkNavigation
  split_ifs <;> simp

theorem static_checkContentDepth_score_le (s : String) : (checkContentDepth s).score ≤ 15 := by
  unfold checkContentDepth
  dsimp only
  split_ifs <;> simp

theorem static_checkMetaTags_score_le (t : Option String) (m : Option (Option String)) (v c : Bool) :
    (checkMetaTags t m v c).score ≤ 10 := by
  unfold checkMetaTags
  dsimp only
  split_ifs <;> simp

theorem static_check404Setup_score_le (a : List Anchor) : (check404Setup a).score ≤ 8 := by
  unfold check404Setup
  dsimp only
  split_ifs <;> simp

theorem static_checkContactInfo_score_le (b : String) (a : List Anchor) :
    (checkContactInfo b a).score ≤ 8 := by
  unfold checkContactInfo
  dsimp only
  split_ifs <;> simp

theorem static_checkFooter_score_le (f : Option (ℕ × String)) : (checkFooter f).score ≤ 5 := by
  unfold checkFooter
  rcases f with _ | ⟨k, t⟩
  · simp
  · dsimp only
    split_ifs <;> simp

end StaticCk

namespace LowValue

theorem low_checkWordCount_score_le (l : List Char) : (checkWordCount l).score ≤ 20 := by
  unfold checkWordCount
  dsimp only
  split_ifs <;> simp

theorem low_checkSentenceVariety_score_le (l : List Char) :
    (checkSentenceVariety l).score ≤ 15 := by
  unfold checkSentenceVariety
  dsimp only
  split_ifs <;> simp

theorem low_checkParagraphs_score_le (l : List Char) : (checkParagraphs l).score ≤ 12 := by
  unfold checkParagraphs
  dsimp only
  split_ifs <;> simp

theorem low_checkVocabulary_score_le (l : List Char) : (checkVocabulary l).score ≤ 15 := by
  unfold checkVocabulary
  dsimp only
  split_ifs <;> simp

theorem low_checkRepetition_score_le (l : List Char) : (checkRepetition l).score ≤ 15 := by
  unfold checkRepetition
  dsimp only
  split_ifs <;> simp

theorem low_checkFillerWords_score_le (l : List Char) : (checkFillerWords l).score ≤ 10 := by
  unfold checkFillerWords
  dsimp only
  split_ifs <;> simp

theorem low_checkEngagement_score_le (l : List Char) : (checkEngagement l).score ≤ 8 := by
  unfold checkEngagement
  dsimp only
  split_ifs <;> simp

theorem low_checkSpecificity_score_le (l : List Char) : (checkSpecificity l).score ≤ 5 := by
  unfold checkSpecificity
  dsimp only
  split_ifs <;> simp

end LowValue

/-- Aggregation contract of the SEO battery: whenever `analyzeSEO`
returns, the check scores sum to at most the weight total, and the
reported score is the rounded normalisation of that sum, between 0 and
100. -/
theorem SEO.seo_analyze_spec (d : SEO.SEODoc) (url : String) (o : SEO.SEOResult)
    (h : SEO.analyzeSEO d url = some o) :
    sumScores o.checks ≤ SEO.weights.sum ∧
    o.score = jsRound100 (sumScores o.checks) SEO.weights.sum ∧
    o.score = sumScores o.checks ∧ o.score ≤ 100 := by
  unfold SEO.analyzeSEO at h
  rcases hm : SEO.checkMetaDescription d.metaDescription with _ | c2
  · rw [hm] at h
    exact Option.noConfusion h
  · rw [hm] at h
    dsimp only at h
    injection h with h2
    subst h2
    have hb : sumScores [SEO.checkTitle d.title, c2, SEO.checkH1Tags d.h1Texts,
        SEO.checkHeadingHierarchy d.h1Texts.length d.h2Count d.h3Count,
        SEO.checkImageAlts d.imageAlts, SEO.checkInternalLinks d.linkHrefs url,
        SEO.checkExternalLinks d.linkHrefs url, SEO.checkHTTPS url,
        SEO.checkViewport d.viewport, SEO.checkCanonical d.canonical] ≤ 100 := by
      have b1 := SEO.seo_checkTitle_score_le d.title
      have b2 := SEO.seo_checkMetaDescription_score_le d.metaDescription c2 hm
      have b3 := SEO.seo_checkH1Tags_score_le d.h1Texts
      have b4 := SEO.seo_checkHeadingHierarchy_score_le d.h1Texts.length d.h2Count d.h3Count
      have b5 := SEO.seo_checkImageAlts_score_le d.imageAlts
      have b6 := SEO.seo_checkInternalLinks_score_le d.linkHrefs url
      have b7 := SEO.seo_checkExternalLinks_score_le d.linkHrefs url
      have b8 := SEO.seo_checkHTTPS_score_le url
      have b9 := SEO.seo_checkViewport_score_le d.viewport
      have b10 := SEO.seo_checkCanonical_score_le d.canonical
      simp only [sumScores, List.map_cons, List.map_nil, List.sum_cons, List.sum_nil]
      omega
    have hw : SEO.weights.sum = 100 := rfl
    refine ⟨by rw [hw]; exact hb, rfl, ?_, ?_⟩
    · show jsRound100 _ SEO.weights.sum = _
      rw [hw, jsRound100_self]
    · show jsRound100 _ SEO.weights.sum ≤ 100
      rw [hw, jsRound100_self]
      exact hb

/-- Aggregation contract of the AdSense battery. -/
theorem Ads.ads_analyze_spec (d : Ads.AdsDoc) (url : String) (o : Ads.AdsResult)
    (h : Ads.analyzeHTML d url = some o) :
    sumScores o.checks ≤ Ads.weights.sum ∧
    o.score = jsRound100 (sumScores o.checks) Ads.weights.sum ∧
    o.score = sumScores o.checks ∧ o.score ≤ 100 := by
  unfold Ads.analyzeHTML at h
  rcases hm : Ads.checkMetaDescription d.metaDescription with _ | c2
  · rw [hm] at h
    exact Option.noConfusion h
  · rw [hm] at h
    dsimp only at h
    injection h with h2
    subst h2
    have hb : sumScores [Ads.checkTitleTag d.title, c2, Ads.checkH1Tag d.h1Texts,
        Ads.checkWordCount d.bodyTextNoScripts, Ads.checkImageAlts d.imageAlts,
        Ads.checkHTTPS url, Ads.checkNavigation d.navCount d.hasHeaderNav d.navLinksCount,
        Ads.checkInternalLinks d.linkHrefs url, Ads.checkPrivacyPolicy d.anchors,
        Ads.checkFooter d.footerLinksCount] ≤ 100 := by
      have b1 := Ads.ads_checkTitleTag_score_le d.title
      have b2 := Ads.ads_checkMetaDescription_score_le d.metaDescription c2 hm
      have b3 := Ads.ads_checkH1Tag_score_le d.h1Texts
      have b4 := Ads.ads_checkWordCount_score_le d.bodyTextNoScripts
      have b5 := Ads.ads_checkImageAlts_score_le d.imageAlts
      have b6 := Ads.ads_checkHTTPS_score_le url
      have b7 := Ads.ads_checkNavigation_score_le d.navCount d.hasHeaderNav d.navLinksCount
      have b8 := Ads.ads_checkInternalLinks_score_le d.linkHrefs url
      have b9 := Ads.ads_checkPrivacyPolicy_score_le d.anchors
      have b10 := Ads.ads_checkFooter_score_le d.footerLinksCount
      simp only [sumScores, List.map_cons, List.map_nil, List.sum_cons, List.sum_nil]
      omega
    have hw : Ads.weights.sum = 100 := rfl
    refine ⟨by rw [hw]; exact hb, rfl, ?_, ?_⟩
    · show jsRound100 _ Ads.weights.sum = _
      rw [hw, jsRound100_self]
    · show jsRound100 _ Ads.weights.sum ≤ 100
      rw [hw, jsRound100_self]
      exact hb

/-- Aggregation contract of the static-site battery (total). -/
theorem StaticCk.static_analyze_spec (d : StaticCk.StaticDoc) (url : String) :
    sumScores (StaticCk.analyzeStaticSite d url).checks ≤ StaticCk.weights.sum ∧
    (StaticCk.analyzeStaticSite d url).score =
      jsRound100 (sumScores (StaticCk.analyzeStaticSite d url).checks) StaticCk.weights.sum ∧
    (StaticCk.analyzeStaticSite d url).score =
      sumScores (StaticCk.analyzeStaticSite d url).checks ∧
    (StaticCk.analyzeStaticSite d url).score ≤ 100 := by
  have hb : sumScores (StaticCk.analyzeStaticSite d url).checks ≤ 100 := by
    have b1 := StaticCk.static_checkCustomDomain_score_le url (StaticCk.detectPlatform url)
    have b2 := StaticCk.static_checkHTTPS_score_le url
    have b3 := StaticCk.static_checkEssentialPages_score_le d.anchors
    have b4 := StaticCk.static_checkNavigation_score_le d.hasNavElem d.navLinksCount
    have b5 := StaticCk.static_checkContentDepth_score_le d.contentText
    have b6 := StaticCk.static_checkMetaTags_score_le d.title d.metaDescription d.hasViewport d.hasCharset
    have b7 := StaticCk.static_check404Setup_score_le d.anchors
    have b8 := StaticCk.static_checkContactInfo_score_le d.bodyText d.anchors
    have b9 := StaticCk.static_checkFooter_score_le d.footerData
    unfold StaticCk.analyzeStaticSite
    simp only [sumScores, List.map_cons, List.map_nil, List.sum_cons, List.sum_nil]
    omega
  have hw : StaticCk.weights.sum = 100 := rfl
  refine ⟨by rw [hw]; exact hb, rfl, ?_, ?_⟩
  · show jsRound100 _ StaticCk.weights.sum = _
    rw [hw, jsRound100_self]
    exact rfl
  · show jsRound100 _ StaticCk.weights.sum ≤ 100
    rw [hw, jsRound100_self]
    exact hb

/-- Aggregation contract of the text-quality battery (total). -/
theorem LowValue.low_analyze_spec (text : String) :
    sumScores (LowValue.analyzeContent text).checks ≤ LowValue.weights.sum ∧
    (LowValue.analyzeContent text).score =
      jsRound100 (sumScores (LowValue.analyzeContent text).checks) LowValue.weights.sum ∧
    (LowValue.analyzeContent text).score =
      sumScores (LowValue.analyzeContent text).checks ∧
    (LowValue.analyzeContent text).score ≤ 100 := by
  have hb : sumScores (LowValue.analyzeContent text).checks ≤ 100 := by
    have b1 := LowValue.low_checkWordCount_score_le (asL text)
    have b2 := LowValue.low_checkSentenceVariety_score_le (asL text)
    have b3 := LowValue.low_checkParagraphs_score_le (asL text)
    have b4 := LowValue.low_checkVocabulary_score_le (asL text)
    have b5 := LowValue.low_checkRepetition_score_le (asL text)
    have b6 := LowValue.low_checkFillerWords_score_le (asL text)
    have b7 := LowValue.low_checkEngagement_score_le (asL text)
    have b8 := LowValue.low_checkSpecificity_score_le (asL text)
    unfold LowValue.analyzeContent
    simp only [sumScores, List.map_cons, List.map_nil, List.sum_cons, List.sum_nil]
    omega
  have hw : LowValue.weights.sum = 100 := rfl
  refine ⟨by rw [hw]; exact hb, rfl, ?_, ?_⟩
  · show jsRound100 _ LowValue.weights.sum = _
    rw [hw, jsRound100_self]
    exact rfl
  · show jsRound100 _ LowValue.weights.sum ≤ 100
    rw [hw, jsRound100_self]
    exact hb

/-- Empty AdSense document used to witness the aggregation contract. -/
def adsDemoDoc : Ads.AdsDoc :=
  { title := none, metaDescription := none, h1Texts := [], bodyTextNoScripts := "",
    imageAlts := [], navCount := 0, hasHeaderNav := false, navLinksCount := 0,
    linkHrefs := [], anchors := [], footerLinksCount := none }

/-- Empty static-site document used to witness the aggregation contract. -/
def staticDemoDoc : StaticCk.StaticDoc :=
  { anchors := [], hasNavElem := false, navLinksCount := 0, contentText := "",
    title := none, metaDescription := none, hasViewport := false, hasCharset := false,
    rawHtml := "", bodyText := "", footerData := none }

/-- Outcome of the SEO battery on the empty document over `http`. -/
def seoDemoOutcome : SEO.SEOResult :=
  (SEO.analyzeSEO SEO.emptyDoc "http://example.com").getD { score := 0, url := "", checks := [] }

/-- Outcome of the AdSense battery on the empty document. -/
def adsDemoOutcome : Ads.AdsResult :=
  (Ads.analyzeHTML adsDemoDoc "http://example.com").getD { score := 0, url := "", checks := [] }

/-- Claim C1: in every battery the returned aggregate equals
`round(100 * Σscore / Σweight)`, the check scores never sum to more
than the weights, and the normalized score stays within 0 and 100. -/
theorem claim_C1_battery_aggregation :
    (∀ (d : SEO.SEODoc) (url : String) (o : SEO.SEOResult),
        SEO.analyzeSEO d url = some o →
        sumScores o.checks ≤ SEO.weights.sum ∧
        o.score = jsRound100 (sumScores o.checks) SEO.weights.sum ∧ o.score ≤ 100) ∧
    (∀ (d : Ads.AdsDoc) (url : String) (o : Ads.AdsResult),
        Ads.analyzeHTML d url = some o →
        sumScores o.checks ≤ Ads.weights.sum ∧
        o.score = jsRound100 (sumScores o.checks) Ads.weights.sum ∧ o.score ≤ 100) ∧
    (∀ (d : StaticCk.StaticDoc) (url : String),
        sumScores (StaticCk.analyzeStaticSite d url).checks ≤ StaticCk.weights.sum ∧
        (StaticCk.analyzeStaticSite d url).score =
          jsRound100 (sumScores (StaticCk.analyzeStaticSite d url).checks) StaticCk.weights.sum ∧
        (StaticCk.analyzeStaticSite d url).score ≤ 100) ∧
    (∀ text : String,
        sumScores (LowValue.analyzeContent text).checks ≤ LowValue.weights.sum ∧
        (LowValue.analyzeContent text).score =
          jsRound100 (sumScores (LowValue.analyzeContent text).checks) LowValue.weights.sum ∧
        (LowValue.analyzeContent text).score ≤ 100) := by
  refine ⟨?_, ?_, ?_, ?_⟩
  · intro d url o h
    obtain ⟨a, b, _, c⟩ := SEO.seo_analyze_spec d url o h
    exact ⟨a, b, c⟩
  · intro d url o h
    obtain ⟨a, b, _, c⟩ := Ads.ads_analyze_spec d url o h
    exact ⟨a, b, c⟩
  · intro d url
    obtain ⟨a, b, _, c⟩ := StaticCk.static_analyze_spec d url
    exact ⟨a, b, c⟩
  · intro text
    obtain ⟨a, b, _, c⟩ := LowValue.low_analyze_spec text
    exact ⟨a, b, c⟩

/-- Witness for C1 at concrete inputs. -/
theorem claim_C1_battery_aggregation_witness :
    (sumScores seoDemoOutcome.checks ≤ SEO.weights.sum ∧ seoDemoOutcome.score ≤ 100) ∧
    (sumScores adsDemoOutcome.checks ≤ Ads.weights.sum ∧ adsDemoOutcome.score ≤ 100) ∧
    (StaticCk.analyzeStaticSite staticDemoDoc "http://example.com").score ≤ 100 ∧
    (LowValue.analyzeContent "a sample text").score ≤ 100 := by
  have h1 := claim_C1_battery_aggregation.1 SEO.emptyDoc "http://example.com" seoDemoOutcome rfl
  have h2 := claim_C1_battery_aggregation.2.1 adsDemoDoc "http://example.com" adsDemoOutcome rfl
  have h3 := claim_C1_battery_aggregation.2.2.1 staticDemoDoc "http://example.com"
  have h4 := claim_C1_battery_aggregation.2.2.2 "a sample text"
  exact ⟨⟨h1.1, h1.2.2⟩, ⟨h2.1, h2.2.2⟩, h3.2.2, h4.2.2⟩

/-- Claim C9: every battery's statically accumulated weight total is
exactly 100, so rounding `100 * total / 100` is the identity and each
reported score is the plain sum of the check scores. -/
theorem claim_C9_weight_totals :
    SEO.weights.sum = 100 ∧ Ads.weights.sum = 100 ∧
    StaticCk.weights.sum = 100 ∧ LowValue.weights.sum = 100 ∧
    (∀ t : ℕ, jsRound100 t 100 = t) ∧
    (∀ (d : SEO.SEODoc) (url : String) (o : SEO.SEOResult),
        SEO.analyzeSEO d url = some o → o.score = sumScores o.checks) ∧
    (∀ (d : Ads.AdsDoc) (url : String) (o : Ads.AdsResult),
        Ads.analyzeHTML d url = some o → o.score = sumScores o.checks) ∧
    (∀ (d : StaticCk.StaticDoc) (url : String),
        (StaticCk.analyzeStaticSite d url).score =
          sumScores (StaticCk.analyzeStaticSite d url).checks) ∧
    (∀ text : String,
        (LowValue.analyzeContent text).score =
          sumScores (LowValue.analyzeContent text).checks) := by
  refine ⟨rfl, rfl, rfl, rfl, jsRound100_self, ?_, ?_, ?_, ?_⟩
  · intro d url o h
    exact (SEO.seo_analyze_spec d url o h).2.2.1
  · intro d url o h
    exact (Ads.ads_analyze_spec d url o h).2.2.1
  · intro d url
    exact (StaticCk.static_analyze_spec d url).2.2.1
  · intro text
    exact (LowValue.low_analyze_spec text).2.2.1

/-- Witness for C9 at concrete inputs. -/
theorem claim_C9_weight_totals_witness :
    seoDemoOutcome.score = sumScores seoDemoOutcome.checks ∧
    adsDemoOutcome.score = sumScores adsDemoOutcome.checks ∧
    (LowValue.analyzeContent "another sample").score =
      sumScores (LowValue.analyzeContent "another sample").checks := by
  have h1 := claim_C9_weight_totals.2.2.2.2.2.1 SEO.emptyDoc "http://example.com" seoDemoOutcome rfl
  have h2 := claim_C9_weight_totals.2.2.2.2.2.2.1 adsDemoDoc "http://example.com" adsDemoOutcome rfl
  have h3 := claim_C9_weight_totals.2.2.2.2.2.2.2.2 "another sample"
  exact ⟨h1, h2, h3⟩

/-- Document whose meta-description tag has no `content` attribute. -/
def badMetaDoc : SEO.SEODoc := { SEO.emptyDoc with metaDescription := some none }

/-- Claim C2, settled against the code: a meta-description element
without a `content` attribute makes `checkMetaDescription` read
`undefined.length` and throw, in both HTML batteries, and the throw
propagates out of `analyzeSEO`; the check is not total as the spec
requires. -/
theorem claim_C2_meta_description_throws :
    SEO.checkMetaDescription (some none) = none ∧
    Ads.checkMetaDescription (some none) = none ∧
    SEO.analyzeSEO badMetaDoc "https://example.com" = none :=
  ⟨rfl, rfl, rfl⟩

/-- Counterexample to claim C3 as stated: the ad-readiness ladder
assigns the middle tier at score 55, although 55 is below the claimed
middle threshold of 60. -/
theorem claim_C3_ladder_counterexample :
    Ads.tierOf 55 = Tier.middle ∧ ¬ (60 : ℕ) ≤ 55 := by
  constructor
  · rfl
  · decide

/-- Claim C3 as amended: the two-threshold ladders are ≥80/≥60 for SEO,
≥80/≥50 for ad-readiness, ≥80/≥55 for the static-site battery and
≥75/≥50 for the text-quality battery. -/
theorem claim_C3_tier_ladders :
    ∀ s : ℕ,
      ((SEO.tierOf s = Tier.top ↔ 80 ≤ s) ∧
        (SEO.tierOf s = Tier.middle ↔ 60 ≤ s ∧ s < 80) ∧
        (SEO.tierOf s = Tier.bottom ↔ s < 60)) ∧
      ((Ads.tierOf s = Tier.top ↔ 80 ≤ s) ∧
        (Ads.tierOf s = Tier.middle ↔ 50 ≤ s ∧ s < 80) ∧
        (Ads.tierOf s = Tier.bottom ↔ s < 50)) ∧
      ((StaticCk.tierOf s = Tier.top ↔ 80 ≤ s) ∧
        (StaticCk.tierOf s = Tier.middle ↔ 55 ≤ s ∧ s < 80) ∧
        (StaticCk.tierOf s = Tier.bottom ↔ s < 55)) ∧
      ((LowValue.tierOf s = Tier.top ↔ 75 ≤ s) ∧
        (LowValue.tierOf s = Tier.middle ↔ 50 ≤ s ∧ s < 75) ∧
        (LowValue.tierOf s = Tier.bottom ↔ s < 50)) := by
  intro s
  unfold SEO.tierOf Ads.tierOf StaticCk.tierOf LowValue.tierOf
  refine ⟨⟨?_, ?_, ?_⟩, ⟨?_, ?_, ?_⟩, ⟨?_, ?_, ?_⟩, ⟨?_, ?_, ?_⟩⟩ <;>
    split_ifs <;> simp <;> omega

/-- Claim C5: on an empty page served over `http`, the SEO battery
gives 0 to Title, Meta Description, H1 and HTTPS, the fixed no-images
score 5 on Image Alt, the very-few-links score 2 on Internal Links,
and a total normalized score of 13, below 20.  The message list pins
the branches taken. -/
theorem claim_C5_empty_page_scenario :
    ((SEO.analyzeSEO SEO.emptyDoc "http://example.com").map
        (fun o => o.checks.map (fun c => (c.name, c.score)))) =
      some [("Title Tag", 0), ("Meta Description", 0), ("H1 Heading", 0),
        ("Heading Structure", 0), ("Image Alt Attributes", 5), ("Internal Links", 2),
        ("External Links", 4), ("HTTPS Security", 0), ("Mobile Viewport", 0),
        ("Canonical Tag", 2)] ∧
    ((SEO.analyzeSEO SEO.emptyDoc "http://example.com").map (fun o => o.score)) = some 13 ∧
    (13 : ℕ) < 20 ∧
    ((SEO.analyzeSEO SEO.emptyDoc "http://example.com").map
        (fun o => o.checks.map (fun c => c.message))) =
      some ["Missing title tag - critical SEO element not found.",
        "Missing meta description - important for click-through rates.",
        "No H1 heading found - main topic unclear to search engines.",
        "No heading hierarchy established.",
        "No images found. Consider adding relevant visuals.",
        "Very few internal links (0). Poor site structure signal.",
        "No external links found.",
        "Site not using HTTPS - major security and ranking issue.",
        "Missing viewport meta tag - likely not mobile-friendly.",
        "No canonical tag found."] := by
  refine ⟨rfl, rfl, by decide, rfl⟩

/-- Claim C6: `https://myproject.netlify.app` is detected as a Netlify
subdomain and the custom-domain check fails with score 3 and the
platform label in its message, while `https://example.com` passes with
score 15. -/
theorem claim_C6_custom_domain_scenario :
    StaticCk.detectPlatform "https://myproject.netlify.app" = "Netlify" ∧
    (StaticCk.checkCustomDomain "https://myproject.netlify.app"
        (StaticCk.detectPlatform "https://myproject.netlify.app")).status = Status.fail ∧
    (StaticCk.checkCustomDomain "https://myproject.netlify.app"
        (StaticCk.detectPlatform "https://myproject.netlify.app")).score = 3 ∧
    (StaticCk.checkCustomDomain "https://myproject.netlify.app"
        (StaticCk.detectPlatform "https://myproject.netlify.app")).message =
      "Using Netlify subdomain. Not ideal for AdSense." ∧
    (StaticCk.checkCustomDomain "https://example.com"
        (StaticCk.detectPlatform "https://example.com")).status = Status.pass ∧
    (StaticCk.checkCustomDomain "https://example.com"
        (StaticCk.detectPlatform "https://example.com")).score = 15 :=
  ⟨rfl, rfl, rfl, rfl, rfl, rfl⟩

/-- Claim C8: a trimmed title of exactly 30 characters skips the
too-short branch and one of exactly 70 characters skips the too-long
branch; both land in the full-score pass branch of the title checks of
the SEO and ad-readiness batteries. -/
theorem claim_C8_title_boundaries :
    ∀ t : String,
      strLen (jsTrim t) = 30 ∨ strLen (jsTrim t) = 70 →
      (SEO.checkTitle (some t)).status = Status.pass ∧
      (SEO.checkTitle (some t)).score = 15 ∧
      (Ads.checkTitleTag (some t)).status = Status.pass ∧
      (Ads.checkTitleTag (some t)).score = 10 := by
  intro t h
  unfold SEO.checkTitle Ads.checkTitleTag
  dsimp only
  rcases h with h | h <;> rw [h] <;> simp

/-- Witness for C8 at concrete 30- and 70-character titles. -/
theorem claim_C8_title_boundaries_witness :
    ((SEO.checkTitle (some (ofL (List.replicate 30 'a')))).status = Status.pass ∧
      (SEO.checkTitle (some (ofL (List.replicate 30 'a')))).score = 15 ∧
      (Ads.checkTitleTag (some (ofL (List.replicate 30 'a')))).status = Status.pass ∧
      (Ads.checkTitleTag (some (ofL (List.replicate 30 'a')))).score = 10) ∧
    ((SEO.checkTitle (some (ofL (List.replicate 70 'b')))).status = Status.pass ∧
      (SEO.checkTitle (some (ofL (List.replicate 70 'b')))).score = 15 ∧
      (Ads.checkTitleTag (some (ofL (List.replicate 70 'b')))).status = Status.pass ∧
      (Ads.checkTitleTag (some (ofL (List.replicate 70 'b')))).score = 10) :=
  ⟨claim_C8_title_boundaries _ (Or.inl (by decide)),
   claim_C8_title_boundaries _ (Or.inr (by decide))⟩

/-- Claim C10: the casual dictionary replaces its keys wherever they
occur, case-insensitively and without word anchors — `regarding` is
rewritten even inside `Disregarding` — while the professional and story
dictionaries, whose patterns carry `\b` anchors, leave superstrings
such as `reuse` and `mislearn` untouched and rewrite the standalone
words. -/
theorem claim_C10_dictionary_anchoring :
    Hum.applyCasualTone ["Disregarding the cost."] = ["Disabout the cost."] ∧
    Hum.applyCasualTone ["REGARDING the cost."] = ["about the cost."] ∧
    Hum.applyProfessionalTone ["We reuse the tool."] = ["We reuse the tool."] ∧
    Hum.applyProfessionalTone ["We use the tool."] = ["We utilize the tool."] ∧
    Hum.applyStoryTone ["They mislearn quickly."] = ["They mislearn quickly."] ∧
    Hum.applyStoryTone ["They learn quickly."] = ["They come to realize quickly."] :=
  ⟨rfl, rfl, rfl, rfl, rfl, rfl⟩

/-- Compatibility of a text fragment with a pattern: one is a
case-optional prefix of the other.  A whole-word match overlapping the
head of the fragment forces compatibility. -/
def compat (ci : Bool) (a p : List Char) : Bool := ciLeads ci a p || ciLeads ci p a

/-- No position of the replacement text can start a whole-word match of
the pattern: walking the replacement with entry wordness `w`, every
suffix either sits behind a word character (no boundary) or is not
compatible with the pattern. -/
def sufSafe (ci : Bool) (p : List Char) : Bool → List Char → Bool
  | _, [] => true
  | w, c :: r => (w || !compat ci (c :: r) p) && sufSafe ci p (isWordC c) r

/-- No nonempty prefix of the replacement matches, up to case, a proper
trailing part of the pattern, so a match cannot end inside an inserted
replacement. -/
def tailSafe (ci : Bool) (p r : List Char) : Bool :=
  (List.range p.length).all (fun m =>
    m = 0 || ((r.take m).map (canon ci) ≠ (p.drop (p.length - m)).map (canon ci)))

/-- Wordness of the character preceding the position just after `r`,
starting from wordness `w`. -/
def flagAfter : Bool → List Char → Bool
  | w, [] => w
  | _, c :: r => flagAfter (isWordC c) r

theorem flagAfter_ne (w : Bool) :
    ∀ (r : List Char) (c : Char), flagAfter w (r ++ [c]) = isWordC c := by
  intro r
  induction r generalizing w with
  | nil => intro c; rfl
  | cons d r ih => intro c; exact ih (isWordC d) c

theorem ciLeads_long (ci : Bool) :
    ∀ (p u v : List Char), p.length ≤ u.length →
      ciLeads ci p (u ++ v) = ciLeads ci p u := by
  intro p
  induction p with
  | nil => intro u v _; rfl
  | cons a p ih =>
    intro u v hu
    match u with
    | [] => simp at hu
    | c :: u =>
      simp only [List.cons_append, ciLeads]
      rw [show u.append v = u ++ v from rfl, ih u v (by simpa using hu)]

theorem ciLeads_split (ci : Bool) :
    ∀ (u p v : List Char), ciLeads ci p (u ++ v) = true → u.length ≤ p.length →
      ciLeads ci u p = true ∧ ciLeads ci (p.drop u.length) v = true := by
  intro u
  induction u with
  | nil => intro p v h _; exact ⟨rfl, h⟩
  | cons c u ih =>
    intro p v h hu
    match p with
    | [] => simp at hu
    | a :: p =>
      simp only [List.cons_append, ciLeads, Bool.and_eq_true, beq_iff_eq] at h ⊢
      obtain ⟨h1, h2⟩ := h
      obtain ⟨h3, h4⟩ := ih p v h2 (by simpa using hu)
      exact ⟨⟨by rw [h1], h3⟩, h4⟩

theorem ciLeads_take_eq (ci : Bool) :
    ∀ (q r : List Char), ciLeads ci q r = true →
      (r.take q.length).map (canon ci) = q.map (canon ci) := by
  intro q
  induction q with
  | nil => intro r _; rfl
  | cons a q ih =>
    intro r h
    match r with
    | [] => simp [ciLeads] at h
    | c :: r =>
      simp only [ciLeads, Bool.and_eq_true, beq_iff_eq] at h
      simp only [List.length_cons, List.take_succ_cons, List.map_cons, h.1, ih r h.2]

theorem hasOcc_append_safe (ci : Bool) (p : List Char) :
    ∀ (ins : List Char) (w : Bool) (rest : List Char),
      sufSafe ci p w ins = true →
      hasOcc ci p (flagAfter w ins) rest = false →
      hasOcc ci p w (ins ++ rest) = false := by
  intro ins
  induction ins with
  | nil => intro w rest _ h2; exact h2
  | cons c r ih =>
    intro w rest h1 h2
    simp only [sufSafe, Bool.and_eq_true] at h1
    obtain ⟨hc, hs⟩ := h1
    have tail : hasOcc ci p (isWordC c) (r ++ rest) = false :=
      ih (isWordC c) rest hs h2
    have head : matchB ci p w (c :: (r ++ rest)) = false := by
      cases hw : w with
      | true => simp [matchB]
      | false =>
        rw [hw] at hc
        simp only [Bool.false_or] at hc
        cases hL : ciLeads ci p ((c :: r) ++ rest) with
        | false => simp only [List.cons_append] at hL; simp [matchB, hL]
        | true =>
          exfalso
          rcases le_or_lt p.length (c :: r).length with hle | hlt
          · have := ciLeads_long ci p (c :: r) rest hle
            rw [hL] at this
            have hcompat : compat ci (c :: r) p = true := by
              unfold compat
              rw [← this]
              simp
            rw [hcompat] at hc
            simp at hc
          · obtain ⟨h3, _⟩ := ciLeads_split ci (c :: r) p rest hL (le_of_lt hlt)
            have hcompat : compat ci (c :: r) p = true := by
              unfold compat
              rw [h3]
              simp
            rw [hcompat] at hc
            simp at hc
    show hasOcc ci p w ((c :: r) ++ rest) = false
    simp only [List.cons_append, hasOcc]
    rw [show r.append rest = r ++ rest from rfl, head, tail]
    rfl

theorem replGo_cases (ci : Bool) (pat : Char × List Char) (r : List Char) :
    ∀ (fuel : ℕ) (w : Bool) (s : List Char),
      replGo ci pat r fuel w s = s ∨
      ∃ a b X, s = a ++ b ∧ ciLeads ci (patL pat) b = true ∧
        bAfterF (patL pat) b = true ∧
        replGo ci pat r fuel w s = a ++ r ++ X := by
  intro fuel
  induction fuel with
  | zero =>
    intro w s
    left
    cases s <;> rfl
  | succ fuel ih =>
    intro w s
    match s with
    | [] => left; rfl
    | c :: cs =>
      by_cases hm : matchB ci (patL pat) w (c :: cs) = true
      · right
        have hparts := hm
        simp only [matchB, Bool.and_eq_true] at hparts
        refine ⟨[], c :: cs,
          replGo ci pat r fuel (patLastW pat) ((c :: cs).drop (patL pat).length),
          rfl, hparts.1.2, hparts.2, ?_⟩
        simp [replGo, hm]
      · rcases ih (isWordC c) cs with h | ⟨a, b, X, hab, h1, h2, h3⟩
        · left
          simp [replGo, hm, h]
        · right
          refine ⟨c :: a, b, X, by rw [hab]; rfl, h1, h2, ?_⟩
          simp [replGo, hm, h3]

theorem bAfterF_congr (p s1 s2 : List Char) (h : s1.drop p.length = s2.drop p.length) :
    bAfterF p s1 = bAfterF p s2 := by
  unfold bAfterF
  rw [h]

/-- Core soundness of the whole-word replace-all scanner: under the
decidable side conditions relating pattern and replacement (word-charac­
ter edges, replacement longer than pattern, no replacement suffix
compatible with the pattern at a boundary, no replacement prefix equal
to a trailing part of the pattern), the output contains no whole-word
occurrence of the pattern — every one was replaced and none was
created. -/
theorem replGo_kills (ci : Bool) (pat : Char × List Char) (r : List Char)
    (hhead : (match r with | [] => false | c :: _ => isWordC c) = true)
    (hlast : flagAfter false r = true)
    (hplast : patLastW pat = true)
    (hlen : (patL pat).length < r.length)
    (hsuf : sufSafe ci (patL pat) false r = true)
    (htail : tailSafe ci (patL pat) r = true) :
    ∀ (fuel : ℕ) (w : Bool) (s : List Char), s.length ≤ fuel →
      hasOcc ci (patL pat) w (replGo ci pat r fuel w s) = false := by
  intro fuel
  induction fuel with
  | zero =>
    intro w s hs
    have hnil : s = [] := List.eq_nil_of_length_eq_zero (Nat.le_zero.mp hs)
    subst hnil
    rfl
  | succ fuel ih =>
    intro w s hs
    match s with
    | [] => rfl
    | c :: cs =>
      have hpl1 : 1 ≤ (patL pat).length := by simp [patL]
      by_cases hm : matchB ci (patL pat) w (c :: cs) = true
      · have hw : w = false := by
          have h0 := hm
          simp only [matchB, Bool.and_eq_true, Bool.not_eq_true'] at h0
          exact h0.1.1
        have hstep : replGo ci pat r (fuel + 1) w (c :: cs) =
            r ++ replGo ci pat r fuel (patLastW pat) ((c :: cs).drop (patL pat).length) := by
          simp [replGo, hm]
        rw [hstep, hw]
        refine hasOcc_append_safe ci (patL pat) r false _ hsuf ?_
        rw [hlast, hplast]
        have hrec := ih (patLastW pat) ((c :: cs).drop (patL pat).length) (by
          simp only [List.length_drop, List.length_cons] at *
          omega)
        rw [hplast] at hrec
        exact hrec
      · have hstep : replGo ci pat r (fuel + 1) w (c :: cs) =
            c :: replGo ci pat r fuel (isWordC c) cs := by
          simp [replGo, hm]
        rw [hstep]
        show (matchB ci (patL pat) w (c :: replGo ci pat r fuel (isWordC c) cs) ||
          hasOcc ci (patL pat) (isWordC c) (replGo ci pat r fuel (isWordC c) cs)) = false
        have h2 := ih (isWordC c) cs (by
          simp only [List.length_cons] at hs
          omega)
        have h1 : matchB ci (patL pat) w
            (c :: replGo ci pat r fuel (isWordC c) cs) = false := by
          by_contra hcon
          rw [Bool.not_eq_false] at hcon
          simp only [matchB, Bool.and_eq_true, Bool.not_eq_true'] at hcon
          obtain ⟨⟨hwf, hLeads⟩, hAfter⟩ := hcon
          rcases replGo_cases ci pat r fuel (isWordC c) cs with
            hid | ⟨a, b, X, hab, _, _, hout⟩
          · rw [hid] at hLeads hAfter
            exact hm (by simp [matchB, hwf, hLeads, hAfter])
          · rw [hout] at hLeads hAfter
            rcases lt_trichotomy a.length ((patL pat).length - 1) with hlt | heq | hgt
            · -- the output window would end inside the inserted replacement
              have hL2 : ciLeads ci (patL pat) ((c :: a) ++ (r ++ X)) = true := by
                rw [← hLeads]
                congr 1
                simp
              obtain ⟨_, hq⟩ := ciLeads_split ci (c :: a) (patL pat) (r ++ X) hL2 (by
                simp only [List.length_cons]
                omega)
              have hqlen : ((patL pat).drop (c :: a).length).length =
                  (patL pat).length - (a.length + 1) := by
                simp [List.length_drop]
              have hmr : ((patL pat).drop (c :: a).length).length ≤ r.length := by
                omega
              have hqr : ciLeads ci ((patL pat).drop (c :: a).length) r = true := by
                rw [← ciLeads_long ci _ r X hmr]
                exact hq
              have heq2 := ciLeads_take_eq ci _ r hqr
              simp only [tailSafe, List.all_eq_true, List.mem_range] at htail
              have hforbid := htail ((patL pat).drop (c :: a).length).length (by omega)
              have hdropq : (patL pat).drop
                  ((patL pat).length - ((patL pat).drop (c :: a).length).length) =
                  (patL pat).drop (c :: a).length := by
                congr 1
                simp only [List.length_cons] at hqlen ⊢
                omega
              rw [hdropq, Bool.or_eq_true] at hforbid
              rcases hforbid with h0 | hneq
              · rw [decide_eq_true_eq, hqlen] at h0
                omega
              · rw [decide_eq_true_eq] at hneq
                exact hneq heq2
            · -- boundary character would be the replacement's head, a word character
              match hr : r with
              | [] => simp at hhead
              | r0 :: rs =>
                have hw0 : isWordC r0 = true := hhead
                have hdrop : (c :: (a ++ r0 :: rs ++ X)).drop (patL pat).length =
                    r0 :: (rs ++ X) := by
                  conv_lhs =>
                    rw [show (patL pat).length = ((patL pat).length - 1) + 1 from by omega]
                  rw [List.drop_succ_cons, ← heq,
                    show (a ++ r0 :: rs ++ X) = a ++ (r0 :: rs ++ X) from by simp,
                    List.drop_left, List.cons_append]
                unfold bAfterF at hAfter
                rw [hdrop] at hAfter
                simp [hw0] at hAfter
            · -- the window lies in preserved text: the input had the same match
              have hlen_ca : (patL pat).length ≤ (c :: a).length := by
                simp only [List.length_cons]
                omega
              have hLin : ciLeads ci (patL pat) (c :: cs) = true := by
                rw [hab]
                rw [show (c :: (a ++ b)) = (c :: a) ++ b by simp,
                  ciLeads_long ci (patL pat) (c :: a) b hlen_ca]
                rw [show (c :: (a ++ r ++ X)) = (c :: a) ++ (r ++ X) by simp,
                  ciLeads_long ci (patL pat) (c :: a) (r ++ X) hlen_ca] at hLeads
                exact hLeads
              have hdropsplit : ∀ z : List Char,
                  (c :: (a ++ z)).drop (patL pat).length =
                    a.drop ((patL pat).length - 1) ++ z := by
                intro z
                conv_lhs =>
                  rw [show (patL pat).length = ((patL pat).length - 1) + 1 from by omega]
                rw [List.drop_succ_cons, List.drop_append_of_le_length (by omega)]
              have hanil : a.drop ((patL pat).length - 1) ≠ [] := by
                intro hnil
                have := congrArg List.length hnil
                simp only [List.length_drop, List.length_nil] at this
                omega
              match hd : a.drop ((patL pat).length - 1) with
              | [] => exact absurd hd hanil
              | d :: ds =>
                have hAin : bAfterF (patL pat) (c :: cs) = true := by
                  rw [hab]
                  unfold bAfterF at hAfter ⊢
                  rw [hdropsplit b, hd]
                  rw [show (a ++ r ++ X) = (a ++ (r ++ X)) by simp] at hAfter
                  rw [hdropsplit (r ++ X), hd] at hAfter
                  exact hAfter
                exact hm (by simp [matchB, hwf, hLin, hAin])
        rw [h1, h2]
        rfl

/-- String-level corollary: a whole-word replace-all whose replacement
satisfies the side conditions leaves no whole-word occurrence of the
pattern in its output. -/
theorem replaceWordStr_kills (ci : Bool) (p0 : Char) (ps : List Char) (pat rep s : String)
    (hp : asL pat = p0 :: ps)
    (hhead : (match asL rep with | [] => false | c :: _ => isWordC c) = true)
    (hlast : flagAfter false (asL rep) = true)
    (hplast : patLastW (p0, ps) = true)
    (hlen : (patL (p0, ps)).length < (asL rep).length)
    (hsuf : sufSafe ci (patL (p0, ps)) false (asL rep) = true)
    (htail : tailSafe ci (patL (p0, ps)) (asL rep) = true) :
    hasOcc ci (asL pat) false (asL (replaceWordStr ci pat rep s)) = false := by
  have hrew : replaceWordStr ci pat rep s =
      ofL (replGo ci (p0, ps) (asL rep) (asL s).length false (asL s)) := by
    unfold replaceWordStr
    rw [hp]
  rw [hrew, hp]
  exact replGo_kills ci (p0, ps) (asL rep) hhead hlast hplast hlen hsuf htail
    (asL s).length false (asL s) le_rfl

/-- Claim C7 (corrected): for the professional tone each contraction
expansion stage of `addHumanTouches` removes every whole-word occurrence
of its own contraction from its input — only the nine dictionary
contractions are expanded, and `addHumanTouches` on the professional
tone is exactly the sequential application of those nine rules. -/
theorem claim_C7_contraction_expansion :
    (∀ rule ∈ Hum.professionalContractionRules, ∀ s : String,
      hasOcc rule.2.2 (asL rule.1) false
        (asL (replaceWordStr rule.2.2 rule.1 rule.2.1 s)) = false) ∧
    (∀ s : String, Hum.addHumanTouches s Hum.Tone.professional =
      Hum.applyRules Hum.professionalContractionRules s) := by
  constructor
  · intro rule hmem s
    fin_cases hmem <;>
      exact replaceWordStr_kills _ _ _ _ _ s rfl (by decide) (by decide) (by decide)
        (by decide) (by decide) (by decide)
  · intro s
    rfl

/-- Witness: the first professional rule, expanding "don't" to "do not",
leaves no whole-word "don't" in a concrete input that contained two. -/
theorem claim_C7_contraction_expansion_witness :
    hasOcc true (asL "don't") false
      (asL (replaceWordStr true "don't" "do not" "We don't care, don't we?")) = false :=
  claim_C7_contraction_expansion.1 ("don't", "do not", true) (by decide)
    "We don't care, don't we?"

/-- Counterexample to the claim as stated: the contraction "isn't" is
not in the professional dictionary, so it survives the professional
rewrite of a casual input unchanged. -/
theorem claim_C7_surviving_contraction :
    Hum.humanizeText "We don't think this is great but it isn't terrible."
        Hum.Tone.professional (fun _ => 0) =
      "We do not believe this is great but it isn't terrible." ∧
    hasSub (asL "isn't")
      (asL "We don't think this is great but it isn't terrible.") = true ∧
    hasSub (asL "isn't")
      (asL "We do not believe this is great but it isn't terrible.") = true :=
  ⟨rfl, rfl, rfl⟩

/-- The five-letter word of the C4 scenario. -/
def helloL : List Char := asL "hello"

/-- One repeated unit of the scenario text: the word and a separating
space. -/
def c4unit : List Char := helloL ++ [' ']

/-- Raw text consisting of 3,000 repeated instances of the single
five-letter word. -/
def c4text : List Char := (List.replicate 3000 c4unit).flatten

theorem runsGo_hello_step (rest : List Char) :
    runsGo [] (c4unit ++ rest) = helloL :: runsGo [] rest := by
  show runsGo [] ('h' :: 'e' :: 'l' :: 'l' :: 'o' :: ' ' :: rest) = _
  simp +decide [runsGo, helloL, asL]

theorem runs_c4 : ∀ n, runsGo [] ((List.replicate n c4unit).flatten) = List.replicate n helloL := by
  intro n
  induction n with
  | zero => rfl
  | succ n ih =>
    rw [List.replicate_succ, List.flatten_cons, runsGo_hello_step, ih, List.replicate_succ]

theorem map_lc_c4 : c4text.map lc = c4text := by
  unfold c4text
  rw [List.map_flatten, List.map_replicate]
  have : c4unit.map lc = c4unit := by decide
  rw [this]

theorem vocabWords_c4 : LowValue.vocabWords c4text = List.replicate 3000 helloL := by
  unfold LowValue.vocabWords wordRuns
  rw [map_lc_c4]
  unfold c4text
  rw [runs_c4]
  rw [List.filter_eq_self.mpr]
  intro a ha
  rw [List.eq_of_mem_replicate ha]
  decide

theorem repWords_c4 : LowValue.repWords c4text = List.replicate 3000 helloL := by
  unfold LowValue.repWords wordRuns
  rw [map_lc_c4]
  unfold c4text
  rw [runs_c4]
  rw [List.filter_eq_self.mpr]
  intro a ha
  rw [List.eq_of_mem_replicate ha]
  decide

theorem keysGo_mem_rep (w : List Char) (s : List (List Char)) (h : w ∈ s) :
    ∀ m, keysGo s (List.replicate m w) = [] := by
  intro m
  induction m with
  | zero => rfl
  | succ m ih =>
    rw [List.replicate_succ]
    unfold keysGo
    rw [if_pos h]
    exact ih

theorem keysGo_rep_pos (w : List Char) (m : ℕ) (h : 0 < m) :
    keysGo [] (List.replicate m w) = [w] := by
  match m, h with
  | m + 1, _ =>
    rw [List.replicate_succ]
    unfold keysGo
    rw [if_neg (List.not_mem_nil w)]
    rw [keysGo_mem_rep w [w] (List.mem_cons_self w []) m]

theorem checkVocabulary_c4 : (LowValue.checkVocabulary c4text).status = Status.fail := by
  unfold LowValue.checkVocabulary
  rw [vocabWords_c4]
  dsimp only
  rw [keysGo_rep_pos helloL 3000 (by norm_num)]
  simp only [List.length_replicate, List.length_cons, List.length_nil]
  norm_num

theorem overused_c4 : LowValue.overused c4text = [(helloL, 3000)] := by
  unfold LowValue.overused
  rw [repWords_c4]
  dsimp only
  rw [keysGo_rep_pos helloL 3000 (by norm_num)]
  simp only [List.length_replicate, List.map_cons, List.map_nil, List.count_replicate_self]
  have hq : ((3000 : ℕ) : ℚ) > max 3 (((3000 : ℕ) : ℚ) * (3 / 100)) := by norm_num
  simp only [List.filter, hq, decide_eq_true_eq]
  norm_num
  decide

theorem checkRepetition_c4 : LowValue.checkRepetition c4text =
    { name := "Keyword/Word Repetition", status := .pass, score := 15,
      message := "No excessive word repetition detected.", suggestion := none } := by
  unfold LowValue.checkRepetition
  rw [overused_c4]
  norm_num

/-- Claim C4 (corrected): on 3,000 repeated instances of a single
five-letter word the Vocabulary Richness check fails as claimed, and the
Repetition check does flag the word internally as overused — but its
returned verdict is Pass, because a single overused entry falls below
both list-length branch bounds, so the word is never listed in the
message. -/
theorem claim_C4_vocabulary_and_repetition :
    (LowValue.checkVocabulary c4text).status = Status.fail ∧
    LowValue.overused c4text = [(asL "hello", 3000)] ∧
    (LowValue.checkRepetition c4text).status = Status.pass :=
  ⟨checkVocabulary_c4, overused_c4, by rw [checkRepetition_c4]⟩

/-- Counterexample to the claim as stated: the Repetition check on the
scenario text passes with a fixed message that does not contain the
overused word. -/
theorem claim_C4_repetition_counterexample :
    (LowValue.checkRepetition c4text).status = Status.pass ∧
    (LowValue.checkRepetition c4text).message = "No excessive word repetition detected." ∧
    hasSub (asL "hello") (asL (LowValue.checkRepetition c4text).message) = false := by
  rw [checkRepetition_c4]
  refine ⟨rfl, rfl, by decide⟩
